import Mathlib

/-!
# Pros-Units: dimensioned quantities (`RQuantity.hpp`, `QCurvature.hpp`, ...) and `Vector2D.hpp`

The library is a set of C++ class and function templates.  A quantity type
`RQuantity<M, L, T, A>` carries four `std::ratio` exponents in its type and one
`double` magnitude at run time.  Whether an expression such as `a + b` or
`square(a)` is a program at all is decided by template argument deduction and
by the concepts `isRQuantity` / `isQAngle`; what it computes is decided by the
function body.

The embedding keeps both halves:

* every function template of the source is a `FnTemplate`: its template
  parameter list, its function parameter types, its declared return type, the
  type of the expression in its `return` statement, and its body as a Lean
  function on magnitudes;
* `Signature.deduce` is template argument deduction for the parameter forms
  that occur in the source (`const double&`, `const T&`,
  `const RQuantity<M,L,T,A>&`), with explicitly written template arguments;
  `FnTemplate.call` runs the body when deduction succeeds.  `none` always means
  "ill-formed: the call does not compile", never a run-time failure.

Magnitudes are read as real numbers: `double` rounding, infinities and NaN are
outside the model, `x / 0` is Lean's `0`, and `std::sqrt`, `std::pow` are the
real square root and power (which differ from the C++ functions only where
those return NaN or an infinity).  The one exception is `floor`, `ceil`, `trunc`
and `round` to a multiple of a reference quantity, which are discontinuous in
the quotient: they take the rounding of `/` and `*` as a parameter, `binary64`
for `double` arithmetic and the identity for exact arithmetic.  Exponents are rationals: the results of
`std::ratio_add` and friends are reduced fractions, as are the values of `ℚ`;
overflow of the `intmax_t` numerators and denominators, which is a compile
error, is not modelled.  Function arguments are `double`s and quantities;
arguments of other arithmetic types, which convert to `double`, are left out.
-/

namespace units

/-! ## Types and template arguments -/

/-- The exponent tuple of a quantity type: `MassDim, LengthDim, TimeDim, AngleDim`. -/
structure Dim where
  mass : ℚ
  length : ℚ
  time : ℚ
  angle : ℚ
  deriving DecidableEq

/-- A template argument: one of the C++ types the library deals in, or an `int`
constant (for `template <int R>`). -/
inductive TArg where
  /-- the type `double` -/
  | dbl : TArg
  /-- the type `bool` -/
  | bool : TArg
  /-- a reduced `std::ratio<num, den>` -/
  | rat (q : ℚ) : TArg
  /-- the type `RQuantity<M, L, T, A>` with ratio arguments -/
  | rq (d : Dim) : TArg
  /-- a non-type template argument of type `int` -/
  | intc (n : ℤ) : TArg
  deriving DecidableEq

/-- Source `QUANTITY_TYPE(0, 0, 0, 0, Number)` (RQuantity.hpp:75). -/
def Number : Dim := ⟨0, 0, 0, 0⟩

/-- The exponent tuple `QAngleChecker` takes,
`RQuantity<std::ratio<0>, std::ratio<0>, std::ratio<0>, std::ratio<1>>`
(RQuantity.hpp:84): the angle quantity, `QAngle` in `Vector2D.hpp`. -/
def QAngle : Dim := ⟨0, 0, 0, 1⟩

/-- Modelled from the spec: `units/QLength.hpp` is not among the sources; the
length quantity `QLength` (used by `QRadius.hpp`, `QJerk.hpp`, `QCurvature.hpp`)
has the exponent tuple mass 0, length 1, time 0, angle 0. -/
def QLength : Dim := ⟨0, 1, 0, 0⟩

/-- Modelled from the spec: `units/QTime.hpp` is not among the sources; the time
quantity `QTime` has the exponent tuple mass 0, length 0, time 1, angle 0. -/
def QTime : Dim := ⟨0, 0, 1, 0⟩

/-- Source `QUANTITY_TYPE(0, -1, 0, 1, QCurvature)` (QCurvature.hpp:17). -/
def QCurvature : Dim := ⟨0, -1, 0, 1⟩

/-- One entry of a `template <...>` parameter list. -/
inductive TParam where
  /-- Source `typename X` -/
  | typename : TParam
  /-- Source `isRQuantity X` -/
  | isRQuantity : TParam
  /-- Source `isQAngle X` -/
  | isQAngle : TParam
  /-- Source `int X` -/
  | int : TParam
  deriving DecidableEq

/-- Whether a template argument may stand for a template parameter.
`isRQuantity` (RQuantity.hpp:79-82) holds exactly of the `RQuantity<...>`
specialisations: `RQuantityChecker(RQuantity<args...>)` must deduce `args`.
`isQAngle` (RQuantity.hpp:84-87) needs an implicit conversion to
`RQuantity<ratio<0>, ratio<0>, ratio<0>, ratio<1>>`; the constructors from
`double` are `explicit`, so only that type itself converts. -/
def TParam.admits : TParam → TArg → Bool
  | .typename, .intc _ => false
  | .typename, _ => true
  | .isRQuantity, .rq _ => true
  | .isRQuantity, _ => false
  | .isQAngle, .rq d => decide (d = QAngle)
  | .isQAngle, _ => false
  | .int, .intc _ => true
  | .int, _ => false

/-- The type of a function parameter, over the template parameters (by position
in the template parameter list). -/
inductive Pat where
  /-- a parameter whose type names no template parameter: `const double&` -/
  | fixed (t : TArg) : Pat
  /-- Source `const X&` for the template parameter at position `i` -/
  | var (i : Nat) : Pat
  /-- Source `const RQuantity<M, L, T, A>&` for the template parameters at these positions -/
  | rq (m l t a : Nat) : Pat

/-- A `std::ratio` expression over the template parameters. -/
inductive RExpr where
  /-- the template parameter at position `i`, used as a ratio -/
  | var (i : Nat) : RExpr
  /-- Source `std::ratio<n>` -/
  | lit (n : ℤ) : RExpr
  /-- Source `std::ratio<R>` for the `int` template parameter at position `i` -/
  | ofInt (i : Nat) : RExpr
  /-- Source `std::ratio_add` -/
  | add (x y : RExpr) : RExpr
  /-- Source `std::ratio_subtract` -/
  | sub (x y : RExpr) : RExpr
  /-- Source `std::ratio_multiply` -/
  | mul (x y : RExpr) : RExpr
  /-- Source `std::ratio_divide` -/
  | div (x y : RExpr) : RExpr

/-- A result type over the template parameters. -/
inductive RetPat where
  /-- a type that names no template parameter: `double`, `bool`, `Number` -/
  | fixed (t : TArg) : RetPat
  /-- the template parameter at position `i` -/
  | var (i : Nat) : RetPat
  /-- Source `RQuantity<m, l, t, a>` -/
  | rq (m l t a : RExpr) : RetPat

/-- Template arguments found so far, one slot per template parameter. -/
abbrev Bindings := List (Option TArg)

/-- Record `t` for template parameter `i`; a parameter deduced twice must get
the same argument both times. -/
def bindArg (b : Bindings) (i : Nat) (t : TArg) : Option Bindings :=
  match b[i]? with
  | none => none
  | some none => some (b.set i (some t))
  | some (some u) => if u = t then some b else none

/-- Deduce template arguments from one function argument of type `arg`.
No user-defined conversion exists between `double` and any `RQuantity`, or
between two different `RQuantity` types, so a parameter of a fixed or already
known type accepts exactly that type. -/
def deducePat (p : Pat) (arg : TArg) (b : Bindings) : Option Bindings :=
  match p, arg with
  | .fixed t, a => if a = t then some b else none
  | .var i, a => bindArg b i a
  | .rq m l t a, .rq d =>
      (bindArg b m (.rat d.mass)).bind fun b1 =>
      (bindArg b1 l (.rat d.length)).bind fun b2 =>
      (bindArg b2 t (.rat d.time)).bind fun b3 =>
      bindArg b3 a (.rat d.angle)
  | .rq _ _ _ _, _ => none

/-- Deduce from all function arguments, left to right. -/
def deduceAll : List Pat → List TArg → Bindings → Option Bindings
  | [], [], b => some b
  | p :: ps, a :: as, b => (deducePat p a b).bind (deduceAll ps as)
  | _, _, _ => none

/-- The slots after the explicitly written template arguments `f<e1, e2, ...>`:
they fill the leading parameters, the rest is open. -/
def initBindings : (n : Nat) → List TArg → Option Bindings
  | n, [] => some (List.replicate n none)
  | 0, _ :: _ => none
  | n + 1, e :: es => (initBindings n es).map (fun b => some e :: b)

/-- Every template parameter has an argument (none is left undeduced). -/
def complete : Bindings → Option (List TArg)
  | [] => some []
  | none :: _ => none
  | some t :: b => (complete b).map (fun ts => t :: ts)

/-- Kinds and concepts of all template parameters hold. -/
def admitsAll : List TParam → List TArg → Bool
  | [], [] => true
  | p :: ps, t :: ts => p.admits t && admitsAll ps ts
  | _, _ => false

/-- Value of a ratio expression; `none` when a non-ratio type is used as a
ratio or a `ratio_divide` has a zero divisor (both ill-formed). -/
def RExpr.eval (ts : List TArg) : RExpr → Option ℚ
  | .var i => match ts[i]? with
      | some (.rat q) => some q
      | _ => none
  | .lit n => some (n : ℚ)
  | .ofInt i => match ts[i]? with
      | some (.intc n) => some (n : ℚ)
      | _ => none
  | .add x y => (x.eval ts).bind fun p => (y.eval ts).map fun q => p + q
  | .sub x y => (x.eval ts).bind fun p => (y.eval ts).map fun q => p - q
  | .mul x y => (x.eval ts).bind fun p => (y.eval ts).map fun q => p * q
  | .div x y => (x.eval ts).bind fun p => (y.eval ts).bind fun q =>
      if q = 0 then none else some (p / q)

/-- The type a result pattern denotes under the template arguments `ts`. -/
def RetPat.eval (ts : List TArg) : RetPat → Option TArg
  | .fixed t => some t
  | .var i => ts[i]?
  | .rq m l t a =>
      (m.eval ts).bind fun m1 => (l.eval ts).bind fun l1 =>
      (t.eval ts).bind fun t1 => (a.eval ts).map fun a1 => TArg.rq ⟨m1, l1, t1, a1⟩

/-- The type-level part of a function template. -/
structure Signature where
  /-- the `template <...>` parameter list -/
  tparams : List TParam
  /-- the function parameter types (a member function's receiver comes first) -/
  params : List Pat
  /-- the declared return type -/
  ret : RetPat
  /-- the type of the expression in the `return` statement -/
  returned : RetPat

/-- Template arguments of a call `f<explicit...>(args...)`, when the call is
well-formed: every template parameter is given or deduced, the concepts hold,
the return type exists, and the returned expression has the return type (no
conversion between different quantity types exists). -/
def Signature.deduce (s : Signature) (explicit : List TArg) (args : List TArg) :
    Option (List TArg × TArg) :=
  (initBindings s.tparams.length explicit).bind fun b0 =>
  (deduceAll s.params args b0).bind fun b =>
  (complete b).bind fun ts =>
  if admitsAll s.tparams ts then
    (s.ret.eval ts).bind fun r =>
    (s.returned.eval ts).bind fun r1 =>
    if r1 = r then some (ts, r) else none
  else none

/-! ## Values and calls -/

/-- A value of type `RQuantity<M, L, T, A>`: the exponent tuple of its type and
the private member `double value` (RQuantity.hpp:65-66). -/
structure RQuantity where
  dims : Dim
  value : ℝ

/-- Source `constexpr double getValue() const { return value; }` (RQuantity.hpp:52). -/
def RQuantity.getValue (q : RQuantity) : ℝ := q.value

/-- A run-time value: a `double`, a quantity or a `bool`. -/
inductive Val where
  | dbl (x : ℝ) : Val
  | quantity (q : RQuantity) : Val
  | bool (b : Bool) : Val

/-- The static type of a value. -/
def Val.type : Val → TArg
  | .dbl _ => .dbl
  | .quantity q => .rq q.dims
  | .bool _ => .bool

/-- The number a function body reads from an argument: the `double` itself, or
`getValue()` of a quantity. -/
def Val.getValue : Val → ℝ
  | .dbl x => x
  | .quantity q => q.getValue
  | .bool _ => 0

/-- What a function body computes: a `double` (possibly wrapped by a quantity
constructor) or a `bool`. -/
inductive Payload where
  | num (x : ℝ) : Payload
  | flag (b : Bool) : Payload

/-- The value of result type `t` built from what the body computed:
`T(x)` for a quantity type, `x` itself for `double`, `b` for `bool`. -/
def mkVal : TArg → Payload → Option Val
  | .dbl, .num x => some (.dbl x)
  | .rq d, .num x => some (.quantity ⟨d, x⟩)
  | .bool, .flag b => some (.bool b)
  | _, _ => none

/-- A function template: its signature and its body.  The body receives the
template arguments (bodies such as `pow` read `R::num`) and the magnitudes of
the function arguments. -/
structure FnTemplate extends Signature where
  body : List TArg → List ℝ → Payload

/-- The call `f<explicit...>(args...)`.  `none`: the call is ill-formed.  Whether
the result is `none` depends on the argument types only. -/
def FnTemplate.call (f : FnTemplate) (explicit : List TArg) (args : List Val) : Option Val :=
  (f.deduce explicit (args.map Val.type)).bind fun r =>
    mkVal r.2 (f.body r.1 (args.map Val.getValue))

/-- Overload resolution among the function templates `fs` for an operator or
function name: the viable candidates are those whose deduction succeeds.  The
overload sets of this library never have two viable candidates for arguments
of type `double` or `RQuantity`; a call with none or several is `none`. -/
def resolve (fs : List FnTemplate) (explicit : List TArg) (args : List Val) : Option Val :=
  match fs.filterMap (fun f => f.call explicit args) with
  | [v] => some v
  | _ => none

/-! ## RQuantity.hpp: arithmetic operators -/

/-- Source `RATIO_ADD` (RQuantity.hpp:90) with `M1 L1 T1 A1 M2 L2 T2 A2` at positions 0-7. -/
def RATIO_ADD : RetPat :=
  .rq (.add (.var 0) (.var 4)) (.add (.var 1) (.var 5)) (.add (.var 2) (.var 6))
    (.add (.var 3) (.var 7))

/-- Source `RATIO_SUBTRACT` (RQuantity.hpp:91-92) with `M1 .. A2` at positions 0-7. -/
def RATIO_SUBTRACT : RetPat :=
  .rq (.sub (.var 0) (.var 4)) (.sub (.var 1) (.var 5)) (.sub (.var 2) (.var 6))
    (.sub (.var 3) (.var 7))

/-- Source `RATIO_INVERSE` (RQuantity.hpp:93-95) with `M L T A` at positions `m l t a`. -/
def RATIO_INVERSE (m l t a : Nat) : RetPat :=
  .rq (.sub (.lit 0) (.var m)) (.sub (.lit 0) (.var l)) (.sub (.lit 0) (.var t))
    (.sub (.lit 0) (.var a))

/-- Source `RATIO_MULTIPLY(_R)` (RQuantity.hpp:96-97) with `M L T A` at positions `m l t a`. -/
def RATIO_MULTIPLY (r : RExpr) (m l t a : Nat) : RetPat :=
  .rq (.mul (.var m) r) (.mul (.var l) r) (.mul (.var t) r) (.mul (.var a) r)

/-- Source `RATIO_DIVIDE(_R)` (RQuantity.hpp:98-99) with `M L T A` at positions `m l t a`. -/
def RATIO_DIVIDE (r : RExpr) (m l t a : Nat) : RetPat :=
  .rq (.div (.var m) r) (.div (.var l) r) (.div (.var t) r) (.div (.var a) r)

/-- RQuantity.hpp:103-105
`template <isRQuantity T> constexpr T operator+(const T& lhs, const T& rhs)`,
`return T(lhs.getValue() + rhs.getValue());` -/
def operator_plus : FnTemplate where
  tparams := [.isRQuantity]
  params := [.var 0, .var 0]
  ret := .var 0
  returned := .var 0
  body := fun _ a => match a with
    | [lhs, rhs] => .num (lhs + rhs)
    | _ => .num 0

/-- RQuantity.hpp:107-109
`template <isRQuantity T> constexpr T operator-(const T& lhs, const T& rhs)`,
`return T(lhs.getValue() - rhs.getValue());` -/
def operator_minus : FnTemplate where
  tparams := [.isRQuantity]
  params := [.var 0, .var 0]
  ret := .var 0
  returned := .var 0
  body := fun _ a => match a with
    | [lhs, rhs] => .num (lhs - rhs)
    | _ => .num 0

/-- RQuantity.hpp:111-114
`template <typename M1, ..., typename A2> constexpr RQuantity<RATIO_ADD>
operator*(const RQuantity<M1, L1, T1, A1>& lhs, const RQuantity<M2, L2, T2, A2>& rhs)`,
`return RQuantity<RATIO_ADD>(lhs.getValue() * rhs.getValue());` -/
def operator_times : FnTemplate where
  tparams := List.replicate 8 .typename
  params := [.rq 0 1 2 3, .rq 4 5 6 7]
  ret := RATIO_ADD
  returned := RATIO_ADD
  body := fun _ a => match a with
    | [lhs, rhs] => .num (lhs * rhs)
    | _ => .num 0

/-- RQuantity.hpp:116
`template <isRQuantity T> constexpr T operator*(const double& lhs, const T& rhs)`,
`return T(lhs * rhs.getValue());` -/
def operator_times_scalar_lhs : FnTemplate where
  tparams := [.isRQuantity]
  params := [.fixed .dbl, .var 0]
  ret := .var 0
  returned := .var 0
  body := fun _ a => match a with
    | [lhs, rhs] => .num (lhs * rhs)
    | _ => .num 0

/-- RQuantity.hpp:118
`template <isRQuantity T> constexpr T operator*(const T& lhs, const double& rhs)`,
`return T(lhs.getValue() * rhs);` -/
def operator_times_scalar_rhs : FnTemplate where
  tparams := [.isRQuantity]
  params := [.var 0, .fixed .dbl]
  ret := .var 0
  returned := .var 0
  body := fun _ a => match a with
    | [lhs, rhs] => .num (lhs * rhs)
    | _ => .num 0

/-- RQuantity.hpp:120-124
`template <typename M1, ..., typename A2> constexpr RQuantity<RATIO_SUBTRACT>
operator/(const RQuantity<M1, L1, T1, A1>& lhs, const RQuantity<M2, L2, T2, A2>& rhs)`,
`return RQuantity<RATIO_SUBTRACT>(lhs.getValue() / rhs.getValue());` -/
noncomputable def operator_divide : FnTemplate where
  tparams := List.replicate 8 .typename
  params := [.rq 0 1 2 3, .rq 4 5 6 7]
  ret := RATIO_SUBTRACT
  returned := RATIO_SUBTRACT
  body := fun _ a => match a with
    | [lhs, rhs] => .num (lhs / rhs)
    | _ => .num 0

/-- RQuantity.hpp:126-129
`template <typename M, typename L, typename T, typename A>
constexpr RQuantity<RATIO_INVERSE> operator/(const double& x, const T& rhs)`,
`return RQuantity<RATIO_INVERSE>(x / rhs.getValue());`
The second parameter has type `const T&`: `T` is the third template parameter,
the one `RATIO_INVERSE` uses as the time exponent. -/
noncomputable def operator_divide_scalar_lhs : FnTemplate where
  tparams := [.typename, .typename, .typename, .typename]
  params := [.fixed .dbl, .var 2]
  ret := RATIO_INVERSE 0 1 2 3
  returned := RATIO_INVERSE 0 1 2 3
  body := fun _ a => match a with
    | [x, rhs] => .num (x / rhs)
    | _ => .num 0

/-- RQuantity.hpp:131
`template <isRQuantity T> constexpr T operator/(const T& rhs, const double& x)`,
`return T(rhs.getValue() / x);` -/
noncomputable def operator_divide_scalar_rhs : FnTemplate where
  tparams := [.isRQuantity]
  params := [.var 0, .fixed .dbl]
  ret := .var 0
  returned := .var 0
  body := fun _ a => match a with
    | [rhs, x] => .num (rhs / x)
    | _ => .num 0

/-- The candidates for an expression `x * y`. -/
def overloads_times : List FnTemplate :=
  [operator_times, operator_times_scalar_lhs, operator_times_scalar_rhs]

/-- The candidates for an expression `x / y`. -/
noncomputable def overloads_divide : List FnTemplate :=
  [operator_divide, operator_divide_scalar_lhs, operator_divide_scalar_rhs]

/-! ## RQuantity.hpp: members of the class template -/

/-- RQuantity.hpp:49, member of `RQuantity<MassDim, LengthDim, TimeDim, AngleDim>`:
`constexpr double convert(const RQuantity& rhs) const { return value / rhs.value; }`
The receiver is the first parameter; `RQuantity` inside the class names the
receiver's own type. -/
noncomputable def RQuantity.convert : FnTemplate where
  tparams := [.typename, .typename, .typename, .typename]
  params := [.rq 0 1 2 3, .rq 0 1 2 3]
  ret := .fixed .dbl
  returned := .fixed .dbl
  body := fun _ a => match a with
    | [value, rhs] => .num (value / rhs)
    | _ => .num 0

/-- RQuantity.hpp:54-56, member:
`constexpr RQuantity<MassDim, LengthDim, TimeDim, AngleDim> abs() const`,
`return RQuantity<MassDim, LengthDim, TimeDim, AngleDim>(std::fabs(value));` -/
def RQuantity.abs : FnTemplate where
  tparams := [.typename, .typename, .typename, .typename]
  params := [.rq 0 1 2 3]
  ret := .rq (.var 0) (.var 1) (.var 2) (.var 3)
  returned := .rq (.var 0) (.var 1) (.var 2) (.var 3)
  body := fun _ a => match a with
    | [value] => .num |value|
    | _ => .num 0

/-- RQuantity.hpp:58-64, member:
`constexpr RQuantity<std::ratio_divide<MassDim, std::ratio<2>>, ...> sqrt() const`,
`return RQuantity<std::ratio_divide<MassDim, std::ratio<2>>, ...>(std::sqrt(value));` -/
noncomputable def RQuantity.sqrt : FnTemplate where
  tparams := [.typename, .typename, .typename, .typename]
  params := [.rq 0 1 2 3]
  ret := .rq (.div (.var 0) (.lit 2)) (.div (.var 1) (.lit 2)) (.div (.var 2) (.lit 2))
    (.div (.var 3) (.lit 2))
  returned := .rq (.div (.var 0) (.lit 2)) (.div (.var 1) (.lit 2)) (.div (.var 2) (.lit 2))
    (.div (.var 3) (.lit 2))
  body := fun _ a => match a with
    | [value] => .num (Real.sqrt value)
    | _ => .num 0

/-! ## RQuantity.hpp: comparison operators -/

/-- RQuantity.hpp:135-137
`template <isRQuantity T> constexpr bool operator==(const T& lhs, const T& rhs)`,
`return (lhs.getValue() == rhs.getValue());` -/
noncomputable def operator_eq : FnTemplate where
  tparams := [.isRQuantity]
  params := [.var 0, .var 0]
  ret := .fixed .bool
  returned := .fixed .bool
  body := fun _ a => match a with
    | [lhs, rhs] => .flag (decide (lhs = rhs))
    | _ => .flag false

/-- RQuantity.hpp:139-141 `operator!=`: `return (lhs.getValue() != rhs.getValue());` -/
noncomputable def operator_ne : FnTemplate where
  tparams := [.isRQuantity]
  params := [.var 0, .var 0]
  ret := .fixed .bool
  returned := .fixed .bool
  body := fun _ a => match a with
    | [lhs, rhs] => .flag (decide (lhs ≠ rhs))
    | _ => .flag false

/-- RQuantity.hpp:143-145 `operator<=`: `return (lhs.getValue() <= rhs.getValue());` -/
noncomputable def operator_le : FnTemplate where
  tparams := [.isRQuantity]
  params := [.var 0, .var 0]
  ret := .fixed .bool
  returned := .fixed .bool
  body := fun _ a => match a with
    | [lhs, rhs] => .flag (decide (lhs ≤ rhs))
    | _ => .flag false

/-- RQuantity.hpp:147-149 `operator>=`: `return (lhs.getValue() >= rhs.getValue());` -/
noncomputable def operator_ge : FnTemplate where
  tparams := [.isRQuantity]
  params := [.var 0, .var 0]
  ret := .fixed .bool
  returned := .fixed .bool
  body := fun _ a => match a with
    | [lhs, rhs] => .flag (decide (lhs ≥ rhs))
    | _ => .flag false

/-- RQuantity.hpp:151-153 `operator<`: `return (lhs.getValue() < rhs.getValue());` -/
noncomputable def operator_lt : FnTemplate where
  tparams := [.isRQuantity]
  params := [.var 0, .var 0]
  ret := .fixed .bool
  returned := .fixed .bool
  body := fun _ a => match a with
    | [lhs, rhs] => .flag (decide (lhs < rhs))
    | _ => .flag false

/-- RQuantity.hpp:155-157 `operator>`: `return (lhs.getValue() > rhs.getValue());` -/
noncomputable def operator_gt : FnTemplate where
  tparams := [.isRQuantity]
  params := [.var 0, .var 0]
  ret := .fixed .bool
  returned := .fixed .bool
  body := fun _ a => match a with
    | [lhs, rhs] => .flag (decide (lhs > rhs))
    | _ => .flag false

/-! ## RQuantity.hpp: common math functions

`std::pow` is read as the real power `Real.rpow` (they agree for positive
bases, and for integer exponents), `std::sqrt` as `Real.sqrt`, `std::atan2 y x`
as the argument of the complex number `x + y i`. -/

/-- RQuantity.hpp:162
`template <isRQuantity T> constexpr T abs(const T& rhs) { return T(std::abs(rhs.getValue())); }` -/
def abs : FnTemplate where
  tparams := [.isRQuantity]
  params := [.var 0]
  ret := .var 0
  returned := .var 0
  body := fun _ a => match a with
    | [rhs] => .num |rhs|
    | _ => .num 0

/-- RQuantity.hpp:164-167
`template <typename R, typename M, typename L, typename T, typename A>
constexpr RQuantity<RATIO_MULTIPLY(R)> pow(const RQuantity<M, L, T, A>& lhs)`,
`return RQuantity<RATIO_MULTIPLY(R)>(std::pow(lhs.getValue(), double(R::num) / R::den));` -/
noncomputable def pow : FnTemplate where
  tparams := [.typename, .typename, .typename, .typename, .typename]
  params := [.rq 1 2 3 4]
  ret := RATIO_MULTIPLY (.var 0) 1 2 3 4
  returned := RATIO_MULTIPLY (.var 0) 1 2 3 4
  body := fun ts a => match ts, a with
    | .rat r :: _, [lhs] => .num (Real.rpow lhs ((r.num : ℝ) / (r.den : ℝ)))
    | _, _ => .num 0

/-- RQuantity.hpp:169-172
`template <int R, typename M, typename L, typename T, typename A>
constexpr RQuantity<RATIO_DIVIDE(std::ratio<R>)> root(const T& lhs)`,
`return RQuantity<RATIO_DIVIDE(std::ratio<R>)>(std::pow(lhs.getValue(), 1.0 / R));`
The parameter has type `const T&`, `T` being the fourth template parameter. -/
noncomputable def root : FnTemplate where
  tparams := [.int, .typename, .typename, .typename, .typename]
  params := [.var 3]
  ret := RATIO_DIVIDE (.ofInt 0) 1 2 3 4
  returned := RATIO_DIVIDE (.ofInt 0) 1 2 3 4
  body := fun ts a => match ts, a with
    | .intc n :: _, [lhs] => .num (Real.rpow lhs (1 / (n : ℝ)))
    | _, _ => .num 0

/-- RQuantity.hpp:174-177
`template <typename M, typename L, typename T, typename A>
constexpr RQuantity<RATIO_DIVIDE(std::ratio<2>)> sqrt(const T& rhs)`,
`return RQuantity<RATIO_DIVIDE(std::ratio<2>)>(std::sqrt(rhs.getValue()));` -/
noncomputable def sqrt : FnTemplate where
  tparams := [.typename, .typename, .typename, .typename]
  params := [.var 2]
  ret := RATIO_DIVIDE (.lit 2) 0 1 2 3
  returned := RATIO_DIVIDE (.lit 2) 0 1 2 3
  body := fun _ a => match a with
    | [rhs] => .num (Real.sqrt rhs)
    | _ => .num 0

/-- RQuantity.hpp:184-187
`template <typename M, typename L, typename T, typename A>
constexpr RQuantity<RATIO_MULTIPLY(std::ratio<2>)> square(const T& rhs)`,
`return RQuantity<RATIO_MULTIPLY(std::ratio<2>)>(std::pow(rhs.getValue(), 2));` -/
noncomputable def square : FnTemplate where
  tparams := [.typename, .typename, .typename, .typename]
  params := [.var 2]
  ret := RATIO_MULTIPLY (.lit 2) 0 1 2 3
  returned := RATIO_MULTIPLY (.lit 2) 0 1 2 3
  body := fun _ a => match a with
    | [rhs] => .num (Real.rpow rhs 2)
    | _ => .num 0

/-! ## RQuantity.hpp: trigonometric functions -/

/-- RQuantity.hpp:225
`template <isQAngle T> constexpr Number sin(const T& rhs) { return Number(std::sin(rhs.getValue())); }` -/
noncomputable def sin : FnTemplate where
  tparams := [.isQAngle]
  params := [.var 0]
  ret := .fixed (.rq Number)
  returned := .fixed (.rq Number)
  body := fun _ a => match a with
    | [rhs] => .num (Real.sin rhs)
    | _ => .num 0

/-- RQuantity.hpp:227
`template <isQAngle T> constexpr Number cos(const T& rhs) { return Number(std::cos(rhs.getValue())); }` -/
noncomputable def cos : FnTemplate where
  tparams := [.isQAngle]
  params := [.var 0]
  ret := .fixed (.rq Number)
  returned := .fixed (.rq Number)
  body := fun _ a => match a with
    | [rhs] => .num (Real.cos rhs)
    | _ => .num 0

/-- RQuantity.hpp:249-251
`template <isRQuantity T, isQAngle A> T atan2(const T& lhs, const T& rhs)`,
`return A(std::atan2(lhs.getValue(), rhs.getValue()));`
The declared return type is `T`; the returned expression has type `A`. -/
noncomputable def atan2 : FnTemplate where
  tparams := [.isRQuantity, .isQAngle]
  params := [.var 0, .var 0]
  ret := .var 0
  returned := .var 1
  body := fun _ a => match a with
    | [lhs, rhs] => .num (Complex.arg ⟨rhs, lhs⟩)
    | _ => .num 0

/-! ## Expressions, declarations, unit constants -/

/-- The expression `x op y`, `op` naming the overload set `fs`, for operands
that are expressions themselves. -/
def binary (fs : List FnTemplate) (x y : Option Val) : Option Val :=
  x.bind fun a => y.bind fun b => resolve fs [] [a, b]

/-- Source `explicit constexpr RQuantity(double val) : value(val) {}` and the
`long double` constructor (RQuantity.hpp:20-22), for the quantity type with
exponents `d`. -/
def RQuantity.ctor (d : Dim) (val : ℝ) : Val := .quantity ⟨d, val⟩

/-- Initialising a variable, or a function result, declared with the quantity
type of exponents `d` from an expression: well-formed only when the expression
has that very type. -/
def declareAs (d : Dim) : Option Val → Option Val
  | some (.quantity q) => if q.dims = d then some (.quantity q) else none
  | _ => none

/-- Modelled from the spec: `units/QLength.hpp` is not among the sources; `meter`
is the canonical constant of the length quantity, of magnitude 1. -/
def meter : Val := RQuantity.ctor QLength 1

/-- Modelled from the spec: `units/QAngle.hpp` is not among the sources; `degree`
is the secondary angle unit, `π / 180` of the canonical angle unit. -/
noncomputable def degree : Val := RQuantity.ctor QAngle (Real.pi / 180)

/-- Source `constexpr QCurvature radpm(1.0);` (QCurvature.hpp:19). -/
def radpm : Val := RQuantity.ctor QCurvature 1

/-- Source `constexpr QCurvature degpm = degree / meter;` (QCurvature.hpp:20). -/
noncomputable def degpm : Option Val :=
  declareAs QCurvature (binary overloads_divide (some degree) (some meter))

/-- QCurvature.hpp:23
`constexpr QCurvature operator"" _radpm(long double x) { return QCurvature(x); }` -/
def literal_radpm (x : ℝ) : Option Val := some (RQuantity.ctor QCurvature x)

/-- QCurvature.hpp:25-27
`constexpr QCurvature operator"" _radpm(unsigned long long int x)`,
`return QCurvature(static_cast<double>(x));` -/
def literal_radpm_ull (x : ℕ) : Option Val := some (RQuantity.ctor QCurvature (x : ℝ))

/-- QCurvature.hpp:29-31
`constexpr QCurvature operator"" _degpm(long double x)`,
`return static_cast<double>(x) * degpm;` -/
noncomputable def literal_degpm (x : ℝ) : Option Val :=
  declareAs QCurvature (binary overloads_times (some (.dbl x)) degpm)

/-- QCurvature.hpp:33-35
`constexpr QCurvature operator"" _degpm(unsigned long long int x)`,
`return static_cast<double>(x) * degpm;` -/
noncomputable def literal_degpm_ull (x : ℕ) : Option Val :=
  declareAs QCurvature (binary overloads_times (some (.dbl (x : ℝ))) degpm)

/-- RQuantity.hpp:266 `#define ConvertTo(_x, _y) (_x).convert(1.0_##_y)`, the
literal operator `_y` passed as `lit`. -/
noncomputable def ConvertTo (x : Option Val) (lit : ℝ → Option Val) : Option Val :=
  x.bind fun a => (lit 1).bind fun u => RQuantity.convert.call [] [a, u]

/-- The operators of RQuantity.hpp:103-109 and 135-157 that take two operands of
one type `T`: `+`, `-`, `==`, `!=`, `<=`, `>=`, `<`, `>`. -/
noncomputable def same_type_operators : List FnTemplate :=
  [operator_plus, operator_minus, operator_eq, operator_ne, operator_le, operator_ge,
    operator_lt, operator_gt]

/-! ## RQuantity.hpp: mutating members, rounding functions -/

/-- RQuantity.hpp:26-29, member:
`constexpr RQuantity const& operator+=(const RQuantity& rhs) { value += rhs.value; return *this; }`
The result is the receiver after the update. -/
def RQuantity.operator_plus_assign : FnTemplate where
  tparams := [.typename, .typename, .typename, .typename]
  params := [.rq 0 1 2 3, .rq 0 1 2 3]
  ret := .rq (.var 0) (.var 1) (.var 2) (.var 3)
  returned := .rq (.var 0) (.var 1) (.var 2) (.var 3)
  body := fun _ a => match a with
    | [value, rhs] => .num (value + rhs)
    | _ => .num 0

/-- RQuantity.hpp:31-34, member:
`constexpr RQuantity const& operator-=(const RQuantity& rhs) { value -= rhs.value; return *this; }`
The result is the receiver after the update. -/
def RQuantity.operator_minus_assign : FnTemplate where
  tparams := [.typename, .typename, .typename, .typename]
  params := [.rq 0 1 2 3, .rq 0 1 2 3]
  ret := .rq (.var 0) (.var 1) (.var 2) (.var 3)
  returned := .rq (.var 0) (.var 1) (.var 2) (.var 3)
  body := fun _ a => match a with
    | [value, rhs] => .num (value - rhs)
    | _ => .num 0

/-- RQuantity.hpp:36, member:
`constexpr RQuantity operator-() { return RQuantity(value * -1); }` -/
def RQuantity.operator_negate : FnTemplate where
  tparams := [.typename, .typename, .typename, .typename]
  params := [.rq 0 1 2 3]
  ret := .rq (.var 0) (.var 1) (.var 2) (.var 3)
  returned := .rq (.var 0) (.var 1) (.var 2) (.var 3)
  body := fun _ a => match a with
    | [value] => .num (value * -1)
    | _ => .num 0

/-- RQuantity.hpp:38-41, member:
`constexpr RQuantity const& operator*=(const double rhs) { value *= rhs; return *this; }`
The result is the receiver after the update. -/
def RQuantity.operator_times_assign : FnTemplate where
  tparams := [.typename, .typename, .typename, .typename]
  params := [.rq 0 1 2 3, .fixed .dbl]
  ret := .rq (.var 0) (.var 1) (.var 2) (.var 3)
  returned := .rq (.var 0) (.var 1) (.var 2) (.var 3)
  body := fun _ a => match a with
    | [value, rhs] => .num (value * rhs)
    | _ => .num 0

/-- RQuantity.hpp:43-46, member:
`constexpr RQuantity const& operator/=(const double rhs) { value /= rhs; return *this; }`
The result is the receiver after the update. -/
noncomputable def RQuantity.operator_divide_assign : FnTemplate where
  tparams := [.typename, .typename, .typename, .typename]
  params := [.rq 0 1 2 3, .fixed .dbl]
  ret := .rq (.var 0) (.var 1) (.var 2) (.var 3)
  returned := .rq (.var 0) (.var 1) (.var 2) (.var 3)
  body := fun _ a => match a with
    | [value, rhs] => .num (value / rhs)
    | _ => .num 0

/-- Source `QUANTITY_TYPE(0, 1, 0, -1, QRadius)` (QRadius.hpp:16). -/
def QRadius : Dim := ⟨0, 1, 0, -1⟩

/-- Source `constexpr QRadius mprad(1.0);` (QRadius.hpp:18). -/
def mprad : Val := RQuantity.ctor QRadius 1

/-- QRadius.hpp:23-25
`static QRadius toRadius(const QLength iRadius) { return QRadius(iRadius.getValue()); }`
Not a template: the parameter has the fixed type `QLength`. -/
def toRadius : FnTemplate where
  tparams := []
  params := [.fixed (.rq QLength)]
  ret := .fixed (.rq QRadius)
  returned := .fixed (.rq QRadius)
  body := fun _ a => match a with
    | [iRadius] => .num iRadius
    | _ => .num 0

/-- Modelled from the spec: `units/QAngularSpeed.hpp` is not among the sources; the
angular speed quantity has the exponent tuple mass 0, length 0, time -1, angle 1. -/
def QAngularSpeed : Dim := ⟨0, 0, -1, 1⟩

/-- Modelled from the spec: `units/QAngularSpeed.hpp` is not among the sources;
`radps` is the canonical constant of the angular speed quantity, of magnitude 1. -/
def radps : Val := RQuantity.ctor QAngularSpeed 1

/-- Modelled from the spec: `units/QTime.hpp` is not among the sources; `second` is
the canonical constant of the time quantity, of magnitude 1. -/
def second : Val := RQuantity.ctor QTime 1

/-- Source `QUANTITY_TYPE(0, 0, -2, 1, QAngularAcceleration)` (QAngularAcceleration.hpp:17). -/
def QAngularAcceleration : Dim := ⟨0, 0, -2, 1⟩

/-- Source `constexpr QAngularAcceleration radps2 = radps / second;`
(QAngularAcceleration.hpp:19). -/
noncomputable def radps2 : Option Val :=
  declareAs QAngularAcceleration (binary overloads_divide (some radps) (some second))

/-- Source `QUANTITY_TYPE(0, 1, -3, 0, QJerk)` (QJerk.hpp:17). -/
def QJerk : Dim := ⟨0, 1, -3, 0⟩

/-- Source `constexpr QJerk mps3 = meter / (second * second * second);` (QJerk.hpp:19). -/
noncomputable def mps3 : Option Val :=
  declareAs QJerk
    (binary overloads_divide (some meter)
      (binary overloads_times (binary overloads_times (some second) (some second))
        (some second)))

/-! ## Vector2D.hpp

`template <isRQuantity T> class Vector2D` holds `T x, y;`.  A vector is its
component type `T` (an exponent tuple) and the two magnitudes.  A member
function is a Lean function of the receiver; its body is the source expression,
each call going through deduction, so a member function whose body is
ill-formed for the vector's component type is `none`.  Functions that assign
to `x` and `y` return the receiver after the call.  The receiver and the
argument `other` are two objects.

`constrainAngle`, called by `fromPolar`, is declared in a header that is not
among the sources; it is a parameter, a function from an angle to an angle. -/

/-- The class `Vector2D<T>` (Vector2D.hpp:10-12): `T x, y;`. -/
structure Vector2D where
  T : Dim
  x : ℝ
  y : ℝ

/-- Vector2D.hpp:24 `T getX() { return x; }`. -/
def Vector2D.getX (v : Vector2D) : Val := .quantity ⟨v.T, v.x⟩

/-- Vector2D.hpp:26 `T getY() { return y; }`. -/
def Vector2D.getY (v : Vector2D) : Val := .quantity ⟨v.T, v.y⟩

/-- Vector2D.hpp:16 `Vector2D(T nx, T ny) : x(nx), y(ny) {}` applied to two
expressions: both must have the type `T`. -/
def Vector2D.ctor (T : Dim) (nx ny : Option Val) : Option Vector2D :=
  (declareAs T nx).bind fun a => (declareAs T ny).bind fun b =>
    some ⟨T, a.getValue, b.getValue⟩

/-- The call `f(x)` of a function template on an operand that is an expression. -/
def unary (f : FnTemplate) (x : Option Val) : Option Val :=
  x.bind fun a => f.call [] [a]

/-- Vector2D.hpp:18-22
`static Vector2D fromPolar(QAngle t, T m)`:
`m = m.abs(); t = constrainAngle(t); return Vector2D<T>(m * cos(t), m * sin(t));` -/
noncomputable def Vector2D.fromPolar (constrainAngle : ℝ → ℝ) (T : Dim) (t : ℝ) (m : ℝ) :
    Option Vector2D :=
  (declareAs T (RQuantity.abs.call [] [.quantity ⟨T, m⟩])).bind fun m1 =>
  (some (Val.quantity ⟨QAngle, constrainAngle t⟩)).bind fun t1 =>
  Vector2D.ctor T (binary overloads_times (some m1) (cos.call [] [t1]))
    (binary overloads_times (some m1) (sin.call [] [t1]))

/-- Vector2D.hpp:28
`Vector2D<T> operator+(Vector2D<T>& other) { return Vector2D<T>(x + other.x, y + other.y); }` -/
def Vector2D.operator_plus (v other : Vector2D) : Option Vector2D :=
  if v.T = other.T then
    Vector2D.ctor v.T (binary [units.operator_plus] (some v.getX) (some other.getX))
      (binary [units.operator_plus] (some v.getY) (some other.getY))
  else none

/-- Vector2D.hpp:30
`Vector2D<T> operator-(Vector2D<T>& other) { return Vector2D<T>(x - other.x, y - other.y); }` -/
def Vector2D.operator_minus (v other : Vector2D) : Option Vector2D :=
  if v.T = other.T then
    Vector2D.ctor v.T (binary [units.operator_minus] (some v.getX) (some other.getX))
      (binary [units.operator_minus] (some v.getY) (some other.getY))
  else none

/-- Vector2D.hpp:32
`Vector2D<T> operator*(double factor) { return Vector2D<T>(x * factor, y * factor); }` -/
def Vector2D.operator_times (v : Vector2D) (factor : ℝ) : Option Vector2D :=
  Vector2D.ctor v.T (binary overloads_times (some v.getX) (some (.dbl factor)))
    (binary overloads_times (some v.getY) (some (.dbl factor)))

/-- Vector2D.hpp:34
`Vector2D<T> operator/(double factor) { return Vector2D<T>(x / factor, y / factor); }` -/
noncomputable def Vector2D.operator_divide (v : Vector2D) (factor : ℝ) : Option Vector2D :=
  Vector2D.ctor v.T (binary overloads_divide (some v.getX) (some (.dbl factor)))
    (binary overloads_divide (some v.getY) (some (.dbl factor)))

/-- The objects after a compound assignment `v op= other` on vectors: the
receiver, the argument, and the object the returned reference denotes. -/
structure Assigned2 where
  self : Vector2D
  other : Vector2D
  returned : Vector2D

/-- The objects after a compound assignment `v op= factor` by a scalar: the
receiver and the object the returned reference denotes. -/
structure Assigned where
  self : Vector2D
  returned : Vector2D

/-- Vector2D.hpp:36-40
`Vector2D<T>& operator+=(Vector2D<T>& other) { x += other.x; y += other.y; return (*this); }` -/
def Vector2D.operator_plus_assign (v other : Vector2D) : Option Assigned2 :=
  if v.T = other.T then
    (RQuantity.operator_plus_assign.call [] [v.getX, other.getX]).bind fun x1 =>
    (RQuantity.operator_plus_assign.call [] [v.getY, other.getY]).bind fun y1 =>
    some ⟨⟨v.T, x1.getValue, y1.getValue⟩, other, ⟨v.T, x1.getValue, y1.getValue⟩⟩
  else none

/-- Vector2D.hpp:42-46
`Vector2D<T>& operator-=(Vector2D<T>& other) { x -= other.x; y -= other.y; return (*this); }` -/
def Vector2D.operator_minus_assign (v other : Vector2D) : Option Assigned2 :=
  if v.T = other.T then
    (RQuantity.operator_minus_assign.call [] [v.getX, other.getX]).bind fun x1 =>
    (RQuantity.operator_minus_assign.call [] [v.getY, other.getY]).bind fun y1 =>
    some ⟨⟨v.T, x1.getValue, y1.getValue⟩, other, ⟨v.T, x1.getValue, y1.getValue⟩⟩
  else none

/-- Vector2D.hpp:48-52
`Vector2D<T>& operator*=(double factor) { x *= factor; y *= factor; return (*this); }` -/
def Vector2D.operator_times_assign (v : Vector2D) (factor : ℝ) : Option Assigned :=
  (RQuantity.operator_times_assign.call [] [v.getX, .dbl factor]).bind fun x1 =>
  (RQuantity.operator_times_assign.call [] [v.getY, .dbl factor]).bind fun y1 =>
  some ⟨⟨v.T, x1.getValue, y1.getValue⟩, ⟨v.T, x1.getValue, y1.getValue⟩⟩

/-- Vector2D.hpp:54-58
`Vector2D<T>& operator/=(double factor) { x /= factor; y /= factor; return (*this); }` -/
noncomputable def Vector2D.operator_divide_assign (v : Vector2D) (factor : ℝ) :
    Option Assigned :=
  (RQuantity.operator_divide_assign.call [] [v.getX, .dbl factor]).bind fun x1 =>
  (RQuantity.operator_divide_assign.call [] [v.getY, .dbl factor]).bind fun y1 =>
  some ⟨⟨v.T, x1.getValue, y1.getValue⟩, ⟨v.T, x1.getValue, y1.getValue⟩⟩

/-- Vector2D.hpp:62 `QAngle theta() { return atan2(y, x); }`. -/
noncomputable def Vector2D.theta (v : Vector2D) : Option Val :=
  declareAs QAngle (binary [atan2] (some v.getY) (some v.getX))

/-- Vector2D.hpp:64 `T magnitude() { return sqrt(square(x) + square(y)); }`. -/
noncomputable def Vector2D.magnitude (v : Vector2D) : Option Val :=
  declareAs v.T
    (unary sqrt (binary [units.operator_plus] (unary square (some v.getX))
      (unary square (some v.getY))))

/-- Vector2D.hpp:66
`Vector2D<T> vectorTo(Vector2D<T>& other) { return Vector2D<T>(other.x - x, other.y - y); }` -/
def Vector2D.vectorTo (v other : Vector2D) : Option Vector2D :=
  if v.T = other.T then
    Vector2D.ctor v.T (binary [units.operator_minus] (some other.getX) (some v.getX))
      (binary [units.operator_minus] (some other.getY) (some v.getY))
  else none

/-- Vector2D.hpp:68
`QAngle angleTo(Vector2D<T>& other) { return atan2(other.y - y, other.x - x); }` -/
noncomputable def Vector2D.angleTo (v other : Vector2D) : Option Val :=
  if v.T = other.T then
    declareAs QAngle
      (binary [atan2] (binary [units.operator_minus] (some other.getY) (some v.getY))
        (binary [units.operator_minus] (some other.getX) (some v.getX)))
  else none

/-- Vector2D.hpp:70
`T distance(Vector2D<T>& other) { return sqrt(square(x - other.x, 2) + square(y - other.y, 2)); }`
Both calls of `square` have two arguments, the second the literal `2`. -/
noncomputable def Vector2D.distance (v other : Vector2D) : Option Val :=
  if v.T = other.T then
    declareAs v.T
      (unary sqrt (binary [units.operator_plus]
        ((binary [units.operator_minus] (some v.getX) (some other.getX)).bind fun dx =>
          square.call [] [dx, .dbl 2])
        ((binary [units.operator_minus] (some v.getY) (some other.getY)).bind fun dy =>
          square.call [] [dy, .dbl 2])))
  else none

/-- Vector2D.hpp:72-77
`void rotateBy(QAngle angle)`:
`T m = magnitude(); QAngle t = theta() + angle; x = m * cos(t); y = m * sin(t);`
The result is the receiver after the call. -/
noncomputable def Vector2D.rotateBy (v : Vector2D) (angle : ℝ) : Option Vector2D :=
  (declareAs v.T v.magnitude).bind fun m =>
  (declareAs QAngle
    (binary [units.operator_plus] v.theta (some (.quantity ⟨QAngle, angle⟩)))).bind fun t =>
  (declareAs v.T (binary overloads_times (some m) (cos.call [] [t]))).bind fun x1 =>
  (declareAs v.T (binary overloads_times (some m) (sin.call [] [t]))).bind fun y1 =>
  some ⟨v.T, x1.getValue, y1.getValue⟩

/-- Vector2D.hpp:79-83
`void rotateTo(QAngle angle)`:
`T m = magnitude(); x = m * cos(angle); y = m * sin(angle);`
The result is the receiver after the call. -/
noncomputable def Vector2D.rotateTo (v : Vector2D) (angle : ℝ) : Option Vector2D :=
  (declareAs v.T v.magnitude).bind fun m =>
  (declareAs v.T
    (binary overloads_times (some m) (cos.call [] [.quantity ⟨QAngle, angle⟩]))).bind fun x1 =>
  (declareAs v.T
    (binary overloads_times (some m) (sin.call [] [.quantity ⟨QAngle, angle⟩]))).bind fun y1 =>
  some ⟨v.T, x1.getValue, y1.getValue⟩

/-- Vector2D.hpp:85-89
`Vector2D<T> rotatedBy(QAngle angle)`:
`T m = magnitude(); QAngle t = theta() + angle; return fromPolar(t, m);` -/
noncomputable def Vector2D.rotatedBy (constrainAngle : ℝ → ℝ) (v : Vector2D) (angle : ℝ) :
    Option Vector2D :=
  (declareAs v.T v.magnitude).bind fun m =>
  (declareAs QAngle
    (binary [units.operator_plus] v.theta (some (.quantity ⟨QAngle, angle⟩)))).bind fun t =>
  Vector2D.fromPolar constrainAngle v.T t.getValue m.getValue

/-- Vector2D.hpp:91-94
`Vector2D<T> rotatedTo(QAngle angle) { T m = magnitude(); return fromPolar(angle, m); }` -/
noncomputable def Vector2D.rotatedTo (constrainAngle : ℝ → ℝ) (v : Vector2D) (angle : ℝ) :
    Option Vector2D :=
  (declareAs v.T v.magnitude).bind fun m =>
  Vector2D.fromPolar constrainAngle v.T angle m.getValue

/-! ## Evaluation lemmas: what each well-formed call returns -/

theorem operator_times_call (a b : RQuantity) :
    resolve overloads_times [] [.quantity a, .quantity b] =
      some (.quantity ⟨⟨a.dims.mass + b.dims.mass, a.dims.length + b.dims.length,
        a.dims.time + b.dims.time, a.dims.angle + b.dims.angle⟩, a.value * b.value⟩) := by
  simp [resolve, overloads_times, FnTemplate.call, Signature.deduce, operator_times,
    operator_times_scalar_lhs, operator_times_scalar_rhs, initBindings, deduceAll, deducePat,
    bindArg, complete, admitsAll, TParam.admits, RATIO_ADD, RetPat.eval, RExpr.eval, mkVal,
    Val.type, Val.getValue, RQuantity.getValue, List.replicate]

theorem operator_divide_call (a b : RQuantity) :
    resolve overloads_divide [] [.quantity a, .quantity b] =
      some (.quantity ⟨⟨a.dims.mass - b.dims.mass, a.dims.length - b.dims.length,
        a.dims.time - b.dims.time, a.dims.angle - b.dims.angle⟩, a.value / b.value⟩) := by
  simp [resolve, overloads_divide, FnTemplate.call, Signature.deduce, operator_divide,
    operator_divide_scalar_lhs, operator_divide_scalar_rhs, initBindings, deduceAll, deducePat,
    bindArg, complete, admitsAll, TParam.admits, RATIO_SUBTRACT, RATIO_INVERSE, RetPat.eval,
    RExpr.eval, mkVal, Val.type, Val.getValue, RQuantity.getValue, List.replicate]

theorem operator_times_scalar_call (k : ℝ) (u : RQuantity) :
    resolve overloads_times [] [.dbl k, .quantity u] = some (.quantity ⟨u.dims, k * u.value⟩) := by
  simp [resolve, overloads_times, FnTemplate.call, Signature.deduce, operator_times,
    operator_times_scalar_lhs, operator_times_scalar_rhs, initBindings, deduceAll, deducePat,
    bindArg, complete, admitsAll, TParam.admits, RATIO_ADD, RetPat.eval, RExpr.eval, mkVal,
    Val.type, Val.getValue, RQuantity.getValue, List.replicate]

/-- C1: for all quantities `a`, `b`, `a * b` is well-formed with the element-wise
sum of the exponents and the product of the magnitudes, `a / b` with the
element-wise difference and the quotient, and `(a * b) / b` is `a` (same
exponent tuple, same magnitude) whenever `b`'s magnitude is not zero. -/
theorem C1_times_divide (a b : RQuantity) :
    binary overloads_times (some (.quantity a)) (some (.quantity b)) =
        some (.quantity ⟨⟨a.dims.mass + b.dims.mass, a.dims.length + b.dims.length,
          a.dims.time + b.dims.time, a.dims.angle + b.dims.angle⟩, a.value * b.value⟩)
    ∧ binary overloads_divide (some (.quantity a)) (some (.quantity b)) =
        some (.quantity ⟨⟨a.dims.mass - b.dims.mass, a.dims.length - b.dims.length,
          a.dims.time - b.dims.time, a.dims.angle - b.dims.angle⟩, a.value / b.value⟩)
    ∧ (b.value ≠ 0 →
        binary overloads_divide
          (binary overloads_times (some (.quantity a)) (some (.quantity b)))
          (some (.quantity b)) = some (.quantity a)) := by
  refine ⟨by simp [binary, operator_times_call], by simp [binary, operator_divide_call], ?_⟩
  intro hb
  simp [binary, operator_times_call, operator_divide_call, mul_div_cancel_right₀ _ hb]

/-- C1 at `a = 6 m`, `b = 2 s`: `(a * b) / b` is `6 m` again. -/
theorem C1_times_divide_witness :
    (2 : ℝ) ≠ 0 ∧
    binary overloads_divide
      (binary overloads_times (some (.quantity ⟨QLength, 6⟩)) (some (.quantity ⟨QTime, 2⟩)))
      (some (.quantity ⟨QTime, 2⟩)) = some (.quantity ⟨QLength, 6⟩) :=
  ⟨by norm_num, (C1_times_divide ⟨QLength, 6⟩ ⟨QTime, 2⟩).2.2 (by norm_num)⟩

theorem operator_plus_call (d : Dim) (x y : ℝ) :
    resolve [operator_plus] [] [.quantity ⟨d, x⟩, .quantity ⟨d, y⟩] =
      some (.quantity ⟨d, x + y⟩) := by
  simp [resolve, FnTemplate.call, Signature.deduce, operator_plus, initBindings, deduceAll,
    deducePat, bindArg, complete, admitsAll, TParam.admits, RetPat.eval, mkVal, Val.type,
    Val.getValue, RQuantity.getValue, List.replicate]

theorem operator_minus_call (d : Dim) (x y : ℝ) :
    resolve [operator_minus] [] [.quantity ⟨d, x⟩, .quantity ⟨d, y⟩] =
      some (.quantity ⟨d, x - y⟩) := by
  simp [resolve, FnTemplate.call, Signature.deduce, operator_minus, initBindings, deduceAll,
    deducePat, bindArg, complete, admitsAll, TParam.admits, RetPat.eval, mkVal, Val.type,
    Val.getValue, RQuantity.getValue, List.replicate]

theorem operator_eq_call (d : Dim) (x y : ℝ) :
    resolve [operator_eq] [] [.quantity ⟨d, x⟩, .quantity ⟨d, y⟩] =
      some (.bool (decide (x = y))) := by
  simp [resolve, FnTemplate.call, Signature.deduce, operator_eq, initBindings, deduceAll,
    deducePat, bindArg, complete, admitsAll, TParam.admits, RetPat.eval, mkVal, Val.type,
    Val.getValue, RQuantity.getValue, List.replicate]

/-- A template `template <isRQuantity T> ... f(const T&, const T&)` deduces only
when both arguments have one type, whatever is written as explicit argument. -/
theorem same_type_deduce (s : Signature) (ht : s.tparams = [.isRQuantity])
    (hp : s.params = [.var 0, .var 0]) (e : List TArg) (ta tb : TArg)
    (h : (s.deduce e [ta, tb]).isSome) : ta = tb := by
  unfold Signature.deduce at h
  rw [ht, hp] at h
  match e with
  | [] =>
    by_contra hne
    simp [initBindings, deduceAll, deducePat, bindArg, hne] at h
  | [t] =>
    by_contra hne
    by_cases h1 : t = ta
    · subst h1
      simp [initBindings, deduceAll, deducePat, bindArg, hne] at h
    · simp [initBindings, deduceAll, deducePat, bindArg, h1] at h
  | _ :: _ :: _ => simp [initBindings] at h

/-- C2: for quantities `a`, `b` of one exponent tuple `d`, `a + b` and `a - b` are
well-formed, have the exponent tuple `d` and the sum / difference of the
magnitudes; `a + b == b + a` and `(a + b) - b == a` evaluate to `true`. -/
theorem C2_plus_minus (d : Dim) (x y : ℝ) :
    binary [operator_plus] (some (.quantity ⟨d, x⟩)) (some (.quantity ⟨d, y⟩)) =
        some (.quantity ⟨d, x + y⟩)
    ∧ binary [operator_minus] (some (.quantity ⟨d, x⟩)) (some (.quantity ⟨d, y⟩)) =
        some (.quantity ⟨d, x - y⟩)
    ∧ binary [operator_eq]
        (binary [operator_plus] (some (.quantity ⟨d, x⟩)) (some (.quantity ⟨d, y⟩)))
        (binary [operator_plus] (some (.quantity ⟨d, y⟩)) (some (.quantity ⟨d, x⟩))) =
        some (.bool true)
    ∧ binary [operator_eq]
        (binary [operator_minus]
          (binary [operator_plus] (some (.quantity ⟨d, x⟩)) (some (.quantity ⟨d, y⟩)))
          (some (.quantity ⟨d, y⟩)))
        (some (.quantity ⟨d, x⟩)) = some (.bool true) := by
  refine ⟨?_, ?_, ?_, ?_⟩
  · simp [binary, operator_plus_call]
  · simp [binary, operator_minus_call]
  · simp [binary, operator_plus_call, operator_eq_call, add_comm]
  · simp [binary, operator_plus_call, operator_minus_call, operator_eq_call]

/-- C3: each of `+`, `-`, `==`, `!=`, `<=`, `>=`, `<`, `>` applied to two quantities
is well-formed exactly when the two exponent tuples are identical (rational
exponents included); no choice of explicit template arguments makes a
mismatched application well-formed; and whether the application is well-formed
does not depend on the magnitudes, so no run-time failure exists. -/
theorem C3_same_type_only :
    ∀ f ∈ same_type_operators, ∀ a b : RQuantity,
      ((f.call [] [.quantity a, .quantity b]).isSome ↔ a.dims = b.dims)
      ∧ (∀ e : List TArg, a.dims ≠ b.dims → f.call e [.quantity a, .quantity b] = none)
      ∧ (∀ x y : ℝ, (f.call [] [.quantity ⟨a.dims, x⟩, .quantity ⟨b.dims, y⟩]).isSome =
          (f.call [] [.quantity a, .quantity b]).isSome) := by
  intro f hf a b
  have key : ∀ e : List TArg, ∀ p q : RQuantity, (f.call e [.quantity p, .quantity q]).isSome →
      p.dims = q.dims := by
    intro e p q h
    have hs : (f.toSignature.deduce e [.rq p.dims, .rq q.dims]).isSome := by
      cases hd : f.toSignature.deduce e [.rq p.dims, .rq q.dims] with
      | none => simp [FnTemplate.call, Val.type, hd] at h
      | some r => simp
    have ht : f.toSignature.tparams = [.isRQuantity] ∧ f.toSignature.params = [.var 0, .var 0] := by
      simp only [same_type_operators, List.mem_cons, List.mem_singleton, List.not_mem_nil,
        or_false] at hf
      rcases hf with rfl | rfl | rfl | rfl | rfl | rfl | rfl | rfl <;>
        exact ⟨rfl, rfl⟩
    have := same_type_deduce f.toSignature ht.1 ht.2 e _ _ hs
    simpa using this
  have ok : ∀ p q : RQuantity, p.dims = q.dims → (f.call [] [.quantity p, .quantity q]).isSome := by
    intro p q hpq
    simp only [same_type_operators, List.mem_cons, List.mem_singleton, List.not_mem_nil,
      or_false] at hf
    rcases hf with rfl | rfl | rfl | rfl | rfl | rfl | rfl | rfl <;>
      simp [FnTemplate.call, Signature.deduce, operator_plus, operator_minus, operator_eq,
        operator_ne, operator_le, operator_ge, operator_lt, operator_gt, initBindings,
        deduceAll, deducePat, bindArg, complete, admitsAll, TParam.admits, RetPat.eval, mkVal,
        Val.type, hpq, List.replicate]
  refine ⟨⟨key [] a b, ok a b⟩, ?_, ?_⟩
  · intro e hne
    cases hc : f.call e [.quantity a, .quantity b] with
    | none => rfl
    | some v => exact absurd (key e a b (by simp [hc])) hne
  · intro x y
    by_cases hab : a.dims = b.dims
    · rw [Option.isSome_iff_exists.mpr (Option.isSome_iff_exists.mp (ok ⟨a.dims, x⟩ ⟨b.dims, y⟩ hab)),
        Option.isSome_iff_exists.mpr (Option.isSome_iff_exists.mp (ok a b hab))]
    · have h1 : (f.call [] [.quantity ⟨a.dims, x⟩, .quantity ⟨b.dims, y⟩]).isSome = false := by
        cases hc : (f.call [] [.quantity ⟨a.dims, x⟩, .quantity ⟨b.dims, y⟩]).isSome with
        | false => rfl
        | true => exact absurd (key [] ⟨a.dims, x⟩ ⟨b.dims, y⟩ hc) hab
      have h2 : (f.call [] [.quantity a, .quantity b]).isSome = false := by
        cases hc : (f.call [] [.quantity a, .quantity b]).isSome with
        | false => rfl
        | true => exact absurd (key [] a b hc) hab
      rw [h1, h2]

/-! ## Templates whose parameter type is a bare `const T&`

`square`, `sqrt`, `root` and `operator/(const double&, const T&)` take their
quantity argument as `const T&`, where `T` is also the template parameter that
the return type uses as the time exponent.  Deduction gives `T` the argument's
type, a quantity type, which is no `std::ratio`. -/

theorem bindArg_get (b b1 : Bindings) (i : Nat) (t : TArg) (h : bindArg b i t = some b1) :
    b1[i]? = some (some t) := by
  unfold bindArg at h
  split at h
  · simp at h
  · next hb =>
    simp only [Option.some.injEq] at h
    subst h
    have hi : i < b.length := by
      rcases Nat.lt_or_ge i b.length with hlt | hge
      · exact hlt
      · rw [List.getElem?_eq_none hge] at hb
        simp at hb
    simp [hi]
  · next u hb =>
    split at h
    · next hu =>
      simp only [Option.some.injEq] at h
      subst h
      subst hu
      exact hb
    · simp at h

theorem complete_get (b : Bindings) (ts : List TArg) (h : complete b = some ts) (i : Nat)
    (t : TArg) (hb : b[i]? = some (some t)) : ts[i]? = some t := by
  induction b generalizing ts i with
  | nil => simp at hb
  | cons o b ih =>
    cases o with
    | none => simp [complete] at h
    | some u =>
      cases hc : complete b with
      | none => simp [complete, hc] at h
      | some ts1 =>
        simp [complete, hc] at h
        subst h
        cases i with
        | zero =>
          simp at hb
          simp [hb]
        | succ j =>
          simp at hb
          simpa using ih ts1 hc j hb

theorem rq_eval_time_none (ts : List TArg) (m l t a : RExpr) (h : t.eval ts = none) :
    (RetPat.rq m l t a).eval ts = none := by
  unfold RetPat.eval
  cases m.eval ts <;> cases l.eval ts <;> simp [h]

/-- A signature whose deduction gives a quantity type to the template parameter
at position `i`, and whose return type does not exist for such an argument,
has no well-formed call. -/
theorem deduce_none_of_ret (s : Signature) (e : List TArg) (args : List TArg) (i : Nat) (d : Dim)
    (hded : ∀ b0 b, deduceAll s.params args b0 = some b → b[i]? = some (some (.rq d)))
    (hret : ∀ ts, ts[i]? = some (.rq d) → s.ret.eval ts = none) :
    s.deduce e args = none := by
  unfold Signature.deduce
  cases h0 : initBindings s.tparams.length e with
  | none => rfl
  | some b0 =>
    show (deduceAll s.params args b0).bind _ = none
    cases h1 : deduceAll s.params args b0 with
    | none => rfl
    | some b =>
      show (complete b).bind _ = none
      cases h2 : complete b with
      | none => rfl
      | some ts =>
        have hts := complete_get b ts h2 i _ (hded b0 b h1)
        simp [hret ts hts]

/-- Deduction from one argument against the parameter `const T&`. -/
theorem deduce_var (i : Nat) (t : TArg) (b0 b : Bindings)
    (h : deduceAll [.var i] [t] b0 = some b) : b[i]? = some (some t) := by
  simp only [deduceAll, deducePat] at h
  cases hb : bindArg b0 i t with
  | none => simp [hb] at h
  | some b1 =>
    simp [hb] at h
    subst h
    exact bindArg_get _ _ _ _ hb

theorem square_deduce (e : List TArg) (d : Dim) : square.deduce e [.rq d] = none := by
  apply deduce_none_of_ret square.toSignature e [.rq d] 2 d
  · intro b0 b h
    exact deduce_var 2 _ b0 b h
  · intro ts hts
    exact rq_eval_time_none _ _ _ _ _ (by simp [RExpr.eval, hts])

theorem sqrt_deduce (e : List TArg) (d : Dim) : sqrt.deduce e [.rq d] = none := by
  apply deduce_none_of_ret sqrt.toSignature e [.rq d] 2 d
  · intro b0 b h
    exact deduce_var 2 _ b0 b h
  · intro ts hts
    exact rq_eval_time_none _ _ _ _ _ (by simp [RExpr.eval, hts])

theorem root_deduce (e : List TArg) (d : Dim) : root.deduce e [.rq d] = none := by
  apply deduce_none_of_ret root.toSignature e [.rq d] 3 d
  · intro b0 b h
    exact deduce_var 3 _ b0 b h
  · intro ts hts
    exact rq_eval_time_none _ _ _ _ _ (by simp [RExpr.eval, hts])

theorem operator_divide_scalar_lhs_deduce (e : List TArg) (d : Dim) :
    operator_divide_scalar_lhs.deduce e [.dbl, .rq d] = none := by
  apply deduce_none_of_ret operator_divide_scalar_lhs.toSignature e [.dbl, .rq d] 2 d
  · intro b0 b h
    simp only [operator_divide_scalar_lhs, deduceAll, deducePat] at h
    cases hb : bindArg b0 2 (.rq d) with
    | none => simp [hb] at h
    | some b1 =>
      simp [hb] at h
      subst h
      exact bindArg_get _ _ _ _ hb
  · intro ts hts
    exact rq_eval_time_none _ _ _ _ _ (by simp [RExpr.eval, hts])

theorem RQuantity.sqrt_call (a : RQuantity) :
    RQuantity.sqrt.call [] [.quantity a] =
      some (.quantity ⟨⟨a.dims.mass / 2, a.dims.length / 2, a.dims.time / 2, a.dims.angle / 2⟩,
        Real.sqrt a.value⟩) := by
  simp [FnTemplate.call, Signature.deduce, RQuantity.sqrt, initBindings, deduceAll, deducePat,
    bindArg, complete, admitsAll, TParam.admits, RetPat.eval, RExpr.eval, mkVal, Val.type,
    Val.getValue, RQuantity.getValue, List.replicate]

theorem RQuantity.abs_call (a : RQuantity) :
    RQuantity.abs.call [] [.quantity a] = some (.quantity ⟨a.dims, |a.value|⟩) := by
  simp [FnTemplate.call, Signature.deduce, RQuantity.abs, initBindings, deduceAll, deducePat,
    bindArg, complete, admitsAll, TParam.admits, RetPat.eval, RExpr.eval, mkVal, Val.type,
    Val.getValue, RQuantity.getValue, List.replicate]

/-- The member function `sqrt()` and `operator*` do what the free `sqrt` and
`square` were meant for: `(a * a).sqrt()` is `a.abs()`. -/
theorem member_sqrt_times_self (a : RQuantity) :
    (binary overloads_times (some (.quantity a)) (some (.quantity a))).bind
        (fun v => RQuantity.sqrt.call [] [v]) = RQuantity.abs.call [] [.quantity a] := by
  obtain ⟨⟨m, l, t, g⟩, x⟩ := a
  simp [binary, operator_times_call, RQuantity.sqrt_call, RQuantity.abs_call,
    Real.sqrt_mul_self_eq_abs]

/-- C4: the free functions `square` and `sqrt` have no well-formed call on a
quantity: for every quantity `a` and every list of explicit template arguments,
`square<...>(a)` and `sqrt<...>(a)` are ill-formed, so neither `square(a) == a * a`
nor `sqrt(square(a)) == a.abs()` is an expression of the library. -/
theorem C4_square_sqrt_ill_formed (a : RQuantity) (e : List TArg) :
    square.call e [.quantity a] = none ∧ sqrt.call e [.quantity a] = none := by
  constructor
  · simp [FnTemplate.call, Val.type, square_deduce]
  · simp [FnTemplate.call, Val.type, sqrt_deduce]

theorem pow_call (r : ℚ) (a : RQuantity) :
    pow.call [.rat r] [.quantity a] =
      some (.quantity ⟨⟨a.dims.mass * r, a.dims.length * r, a.dims.time * r, a.dims.angle * r⟩,
        Real.rpow a.value ((r.num : ℝ) / (r.den : ℝ))⟩) := by
  simp [FnTemplate.call, Signature.deduce, pow, initBindings, deduceAll, deducePat,
    bindArg, complete, admitsAll, TParam.admits, RATIO_MULTIPLY, RetPat.eval, RExpr.eval, mkVal,
    Val.type, Val.getValue, RQuantity.getValue, List.replicate]

/-- C5: `pow<R>(a)` is well-formed for every ratio `R` and quantity `a`, with each
exponent multiplied by `R` and magnitude `a.value` to the power `R::num / R::den`;
`root<...>(a)` is ill-formed for every quantity `a` and every list of explicit
template arguments, so `root<n>(a)` has no exponents and no magnitude. -/
theorem C5_pow_and_root (r : ℚ) (a : RQuantity) (e : List TArg) :
    pow.call [.rat r] [.quantity a] =
      some (.quantity ⟨⟨a.dims.mass * r, a.dims.length * r, a.dims.time * r, a.dims.angle * r⟩,
        Real.rpow a.value ((r.num : ℝ) / (r.den : ℝ))⟩)
    ∧ root.call e [.quantity a] = none := by
  refine ⟨pow_call r a, ?_⟩
  simp [FnTemplate.call, Val.type, root_deduce]

/-- C6: for every scalar `x` and quantity `q`, the expression `x / q` is
ill-formed: no candidate for `operator/` is viable, and the candidate written
for it, `operator/(const double&, const T&)`, has no well-formed call with any
explicit template arguments either. -/
theorem C6_scalar_divide_ill_formed (x : ℝ) (q : RQuantity) (e : List TArg) :
    binary overloads_divide (some (.dbl x)) (some (.quantity q)) = none
    ∧ operator_divide_scalar_lhs.call e [.dbl x, .quantity q] = none := by
  have h : ∀ e1, operator_divide_scalar_lhs.call e1 [.dbl x, .quantity q] = none := by
    intro e1
    simp [FnTemplate.call, Val.type, operator_divide_scalar_lhs_deduce]
  refine ⟨?_, h e⟩
  have h1 : operator_divide.call [] [.dbl x, .quantity q] = none := by
    simp [FnTemplate.call, Signature.deduce, operator_divide, initBindings, deduceAll,
      deducePat, Val.type, List.replicate]
  have h2 : operator_divide_scalar_rhs.call [] [.dbl x, .quantity q] = none := by
    simp [FnTemplate.call, Signature.deduce, operator_divide_scalar_rhs, initBindings,
      deduceAll, deducePat, bindArg, Val.type, List.replicate]
  simp [binary, resolve, overloads_divide, h [], h1, h2]

/-- What C6 expects of `x / q` is what `Number(x) / q` returns. -/
theorem number_divide_call (x : ℝ) (q : RQuantity) :
    binary overloads_divide (some (RQuantity.ctor Number x)) (some (.quantity q)) =
      some (.quantity ⟨⟨-q.dims.mass, -q.dims.length, -q.dims.time, -q.dims.angle⟩,
        x / q.value⟩) := by
  simp [binary, RQuantity.ctor, operator_divide_call, Number]

theorem RQuantity.convert_call (d : Dim) (x y : ℝ) :
    RQuantity.convert.call [] [.quantity ⟨d, x⟩, .quantity ⟨d, y⟩] = some (.dbl (x / y)) := by
  simp [FnTemplate.call, Signature.deduce, RQuantity.convert, initBindings, deduceAll,
    deducePat, bindArg, complete, admitsAll, TParam.admits, RetPat.eval, RExpr.eval, mkVal,
    Val.type, Val.getValue, RQuantity.getValue, List.replicate]

/-- C7: for a quantity `q` and a unit `u` of one exponent tuple `d`, `q.convert(u)`
is the `double` `q.value / u.value`; when `u`'s magnitude is not zero,
`q.convert(u) * u` is `q` again and `(k * u).convert(u)` is `k` for every scalar `k`. -/
theorem C7_convert (d : Dim) (x y k : ℝ) :
    RQuantity.convert.call [] [.quantity ⟨d, x⟩, .quantity ⟨d, y⟩] = some (.dbl (x / y))
    ∧ (y ≠ 0 →
        binary overloads_times
          (RQuantity.convert.call [] [.quantity ⟨d, x⟩, .quantity ⟨d, y⟩])
          (some (.quantity ⟨d, y⟩)) = some (.quantity ⟨d, x⟩)
        ∧ (binary overloads_times (some (.dbl k)) (some (.quantity ⟨d, y⟩))).bind
            (fun ku => RQuantity.convert.call [] [ku, .quantity ⟨d, y⟩]) = some (.dbl k)) := by
  refine ⟨RQuantity.convert_call d x y, fun hy => ⟨?_, ?_⟩⟩
  · simp [binary, RQuantity.convert_call, operator_times_scalar_call, div_mul_cancel₀ _ hy]
  · simp [binary, RQuantity.convert_call, operator_times_scalar_call,
      mul_div_cancel_right₀ _ hy]

/-- C7 at `q = 3 m`, `u = 0.5 m`, `k = 4`. -/
theorem C7_convert_witness :
    (1 / 2 : ℝ) ≠ 0 ∧
    binary overloads_times
        (RQuantity.convert.call [] [.quantity ⟨QLength, 3⟩, .quantity ⟨QLength, 1 / 2⟩])
        (some (.quantity ⟨QLength, 1 / 2⟩)) = some (.quantity ⟨QLength, 3⟩) :=
  ⟨by norm_num, ((C7_convert QLength 3 (1 / 2) 4).2 (by norm_num)).1⟩

theorem degpm_eq : degpm = some (.quantity ⟨QCurvature, Real.pi / 180⟩) := by
  simp [degpm, degree, meter, RQuantity.ctor, binary, operator_divide_call, declareAs,
    QAngle, QLength, QCurvature]

theorem literal_degpm_eq (x : ℝ) :
    literal_degpm x = some (.quantity ⟨QCurvature, x * (Real.pi / 180)⟩) := by
  simp [literal_degpm, degpm_eq, binary, operator_times_scalar_call, declareAs]

theorem literal_degpm_ull_eq (x : ℕ) :
    literal_degpm_ull x = some (.quantity ⟨QCurvature, (x : ℝ) * (Real.pi / 180)⟩) := by
  simp [literal_degpm_ull, degpm_eq, binary, operator_times_scalar_call, declareAs]

/-- C8: `1.0_degpm / 1.0_radpm` is the `Number` of magnitude `π / 180`,
`ConvertTo(1.0_degpm, radpm)` is the `double` `π / 180`, which is within `5e-9` of
`0.017453293`; for every `x` both forms of `x_degpm` are the curvature of
magnitude `x * π / 180` and both forms of `x_radpm` the curvature of magnitude `x`. -/
theorem C8_degpm_radpm :
    binary overloads_divide (literal_degpm 1) (literal_radpm 1) =
        some (.quantity ⟨Number, Real.pi / 180⟩)
    ∧ ConvertTo (literal_degpm 1) literal_radpm = some (.dbl (Real.pi / 180))
    ∧ |Real.pi / 180 - 0.017453293| < 0.000000005
    ∧ (∀ x : ℝ, literal_degpm x = some (.quantity ⟨QCurvature, x * Real.pi / 180⟩))
    ∧ (∀ n : ℕ, literal_degpm_ull n = some (.quantity ⟨QCurvature, (n : ℝ) * Real.pi / 180⟩))
    ∧ (∀ x : ℝ, literal_radpm x = some (.quantity ⟨QCurvature, x⟩))
    ∧ (∀ n : ℕ, literal_radpm_ull n = some (.quantity ⟨QCurvature, (n : ℝ)⟩)) := by
  refine ⟨?_, ?_, ?_, ?_, ?_, ?_, ?_⟩
  · simp [literal_degpm_eq, literal_radpm, RQuantity.ctor, binary, operator_divide_call,
      QCurvature, Number]
  · simp [ConvertTo, literal_degpm_eq, literal_radpm, RQuantity.ctor, RQuantity.convert_call]
  · have h1 := Real.pi_gt_d6
    have h2 := Real.pi_lt_d6
    rw [abs_lt]
    constructor <;> linarith
  · intro x
    rw [literal_degpm_eq, mul_div_assoc]
  · intro n
    rw [literal_degpm_ull_eq, mul_div_assoc]
  · intro x
    rfl
  · intro n
    rfl


theorem admits_isQAngle (u : TArg) : TParam.isQAngle.admits u = true ↔ u = .rq QAngle := by
  cases u <;> simp [TParam.admits]

theorem atan2_deduce (e : List TArg) (ty tx : TArg) :
    atan2.deduce e [ty, tx] =
      (if e = [.rq QAngle, .rq QAngle] ∧ ty = .rq QAngle ∧ tx = .rq QAngle then
        some ([.rq QAngle, .rq QAngle], .rq QAngle)
      else none) := by
  match e with
  | [] =>
    simp only [Signature.deduce, atan2, initBindings, deduceAll, deducePat, bindArg,
      List.length, List.replicate]
    simp [complete]
  | [t] =>
    simp only [Signature.deduce, atan2, initBindings, deduceAll, deducePat, bindArg,
      List.length, List.replicate]
    by_cases h1 : t = ty
    · subst h1
      by_cases h2 : t = tx
      · subst h2
        simp [complete]
      · simp [h2]
    · simp [h1]
  | [t, u] =>
    by_cases hc : t = .rq QAngle ∧ u = .rq QAngle ∧ ty = .rq QAngle ∧ tx = .rq QAngle
    · obtain ⟨rfl, rfl, rfl, rfl⟩ := hc
      simp [Signature.deduce, atan2, initBindings, deduceAll, deducePat, bindArg, complete,
        admitsAll, TParam.admits, RetPat.eval]
    · have hn : ¬ ([t, u] = [TArg.rq QAngle, TArg.rq QAngle] ∧ ty = .rq QAngle ∧ tx = .rq QAngle) := by
        rintro ⟨h1, h2, h3⟩
        simp at h1
        exact hc ⟨h1.1, h1.2, h2, h3⟩
      rw [if_neg hn]
      cases hd : atan2.deduce [t, u] [ty, tx] with
      | none => rfl
      | some r =>
        exfalso
        simp only [Signature.deduce, atan2, initBindings, deduceAll, deducePat, bindArg,
          List.length, List.replicate] at hd
        by_cases h1 : t = ty
        · subst h1
          by_cases h2 : t = tx
          · subst h2
            simp [complete, admitsAll, RetPat.eval, admits_isQAngle] at hd
            obtain ⟨⟨-, hu⟩, hut, -⟩ := hd
            exact hc ⟨hut ▸ hu, hu, hut ▸ hu, hut ▸ hu⟩
          · simp [h2] at hd
        · simp [h1] at hd
  | _ :: _ :: _ :: _ =>
    simp [Signature.deduce, atan2, initBindings]

/-- C9: the call `atan2<e...>(y, x)` on two quantities is well-formed only with
both template arguments written out as the angle type and both operands of the
angle type; then it returns the angle of magnitude `atan2(y.value, x.value)`.
In particular `atan2(y, x)` without explicit template arguments is ill-formed
for all operands, and no call on operands of another dimension is well-formed. -/
theorem C9_atan2 (y x : RQuantity) (e : List TArg) :
    atan2.call e [.quantity y, .quantity x] =
      (if e = [.rq QAngle, .rq QAngle] ∧ y.dims = QAngle ∧ x.dims = QAngle then
        some (.quantity ⟨QAngle, Complex.arg ⟨x.value, y.value⟩⟩)
      else none)
    ∧ atan2.call [] [.quantity y, .quantity x] = none := by
  have h : ∀ e1, atan2.call e1 [.quantity y, .quantity x] =
      (if e1 = [.rq QAngle, .rq QAngle] ∧ y.dims = QAngle ∧ x.dims = QAngle then
        some (.quantity ⟨QAngle, Complex.arg ⟨x.value, y.value⟩⟩)
      else none) := by
    intro e1
    simp only [FnTemplate.call, List.map, Val.type, atan2_deduce, TArg.rq.injEq]
    split_ifs
    · simp [mkVal, atan2, Val.getValue, RQuantity.getValue]
    · rfl
  refine ⟨h e, ?_⟩
  rw [h []]
  simp


/-- A template `template <isQAngle T> ... f(const T&)` deduces only for an
argument of the angle type, whatever is written as explicit argument. -/
theorem angle_only_deduce (s : Signature) (ht : s.tparams = [.isQAngle])
    (hp : s.params = [.var 0]) (e : List TArg) (t : TArg)
    (h : (s.deduce e [t]).isSome) : t = .rq QAngle := by
  unfold Signature.deduce at h
  rw [ht, hp] at h
  match e with
  | [] =>
    by_contra hne
    simp [initBindings, deduceAll, deducePat, bindArg, complete, admitsAll,
      admits_isQAngle, hne] at h
  | [u] =>
    by_contra hne
    by_cases h1 : u = t
    · subst h1
      simp [initBindings, deduceAll, deducePat, bindArg, complete, admitsAll,
        admits_isQAngle, hne] at h
    · simp [initBindings, deduceAll, deducePat, bindArg, h1] at h
  | _ :: _ :: _ => simp [initBindings] at h

theorem sin_call (x : ℝ) :
    sin.call [] [.quantity ⟨QAngle, x⟩] = some (.quantity ⟨Number, Real.sin x⟩) := by
  simp [FnTemplate.call, Signature.deduce, sin, initBindings, deduceAll, deducePat,
    bindArg, complete, admitsAll, TParam.admits, RetPat.eval, mkVal, Val.type, Val.getValue,
    RQuantity.getValue, List.replicate]

theorem cos_call (x : ℝ) :
    cos.call [] [.quantity ⟨QAngle, x⟩] = some (.quantity ⟨Number, Real.cos x⟩) := by
  simp [FnTemplate.call, Signature.deduce, cos, initBindings, deduceAll, deducePat,
    bindArg, complete, admitsAll, TParam.admits, RetPat.eval, mkVal, Val.type, Val.getValue,
    RQuantity.getValue, List.replicate]

theorem call_isSome_deduce (f : FnTemplate) (e : List TArg) (args : List Val)
    (h : (f.call e args).isSome) : (f.deduce e (args.map Val.type)).isSome := by
  cases hd : f.deduce e (args.map Val.type) with
  | none => simp [FnTemplate.call, hd] at h
  | some r => rfl

/-- C10: `sin` and `cos` are well-formed only on an argument of the angle type
(exponent tuple `(0,0,0,1)`), with or without explicit template arguments; on
an angle `t` they return the `Number` (exponent tuple `(0,0,0,0)`) of magnitude
`sin t.value`, `cos t.value`; and `sin(t) * sin(t) + cos(t) * cos(t)` is the
`Number` of magnitude 1. -/
theorem C10_sin_cos (v : Val) (e : List TArg) (x : ℝ) :
    ((sin.call e [v]).isSome → v.type = .rq QAngle)
    ∧ ((cos.call e [v]).isSome → v.type = .rq QAngle)
    ∧ sin.call [] [.quantity ⟨QAngle, x⟩] = some (.quantity ⟨Number, Real.sin x⟩)
    ∧ cos.call [] [.quantity ⟨QAngle, x⟩] = some (.quantity ⟨Number, Real.cos x⟩)
    ∧ binary [operator_plus]
        (binary overloads_times (sin.call [] [.quantity ⟨QAngle, x⟩])
          (sin.call [] [.quantity ⟨QAngle, x⟩]))
        (binary overloads_times (cos.call [] [.quantity ⟨QAngle, x⟩])
          (cos.call [] [.quantity ⟨QAngle, x⟩])) = some (.quantity ⟨Number, 1⟩) := by
  refine ⟨fun h => ?_, fun h => ?_, sin_call x, cos_call x, ?_⟩
  · exact angle_only_deduce sin.toSignature rfl rfl e _ (call_isSome_deduce sin e [v] h)
  · exact angle_only_deduce cos.toSignature rfl rfl e _ (call_isSome_deduce cos e [v] h)
  · have hd : (⟨0 + 0, 0 + 0, 0 + 0, 0 + 0⟩ : Dim) = Number := by simp [Number]
    simp only [sin_call, cos_call, binary, Option.some_bind, operator_times_call, Number]
    rw [hd, ← Number]
    simp only [Number, operator_plus_call]
    simp [← sq, Real.sin_sq_add_cos_sq]

/-- C10 at the angle `0`: `sin(0)` is well-formed and its argument is of the angle type. -/
theorem C10_sin_cos_witness :
    (sin.call [] [.quantity ⟨QAngle, 0⟩]).isSome
    ∧ (Val.quantity ⟨QAngle, 0⟩).type = .rq QAngle :=
  ⟨by simp [sin_call], (C10_sin_cos (.quantity ⟨QAngle, 0⟩) [] 0).1 (by simp [sin_call])⟩

/-- C3 at a length plus a time: `1 m + 1 s` is ill-formed. -/
theorem C3_same_type_only_witness :
    operator_plus ∈ same_type_operators ∧ QLength ≠ QTime
    ∧ operator_plus.call [] [.quantity ⟨QLength, 1⟩, .quantity ⟨QTime, 1⟩] = none :=
  ⟨by simp [same_type_operators], by decide,
    (C3_same_type_only operator_plus (by simp [same_type_operators]) ⟨QLength, 1⟩
      ⟨QTime, 1⟩).2.1 [] (by decide)⟩

/-! ## QRadius.hpp, QAngularAcceleration.hpp, QJerk.hpp: the named quantities -/

theorem toRadius_call (l : ℝ) :
    toRadius.call [] [.quantity ⟨QLength, l⟩] = some (.quantity ⟨QRadius, l⟩) := by
  simp [FnTemplate.call, Signature.deduce, toRadius, initBindings, deduceAll, deducePat,
    complete, admitsAll, RetPat.eval, mkVal, Val.type, Val.getValue, RQuantity.getValue]

/-- C11 as stated fails: the exponent tuple of `QRadius` is not the tuple
`(0, 1, 0, 0)` of a length; the two differ in the angle exponent. -/
theorem C11_QRadius_not_length :
    QRadius ≠ ⟨0, 1, 0, 0⟩ ∧ QRadius ≠ QLength ∧ QRadius.angle ≠ QLength.angle := by
  refine ⟨by decide, by decide, by decide⟩

/-- C11 amended: `QRadius` has the exponent tuple mass 0, length 1, time 0,
angle -1 (a length per angle), which agrees with the length tuple in mass,
length and time; `toRadius(l)` is well-formed for every length `l` and returns
the `QRadius` whose magnitude is exactly `l`'s magnitude. -/
theorem C11_QRadius_toRadius (l : ℝ) :
    QRadius = ⟨0, 1, 0, -1⟩
    ∧ QRadius.mass = QLength.mass ∧ QRadius.length = QLength.length
    ∧ QRadius.time = QLength.time
    ∧ toRadius.call [] [.quantity ⟨QLength, l⟩] = some (.quantity ⟨QRadius, l⟩) :=
  ⟨rfl, rfl, rfl, rfl, toRadius_call l⟩

/-- C12: for all magnitudes, `radps / second`, `meter / (second * second * second)`
and `degree / meter` computed by the exponent algebra from operands of the
tuples `(0,0,-1,1)`, `(0,0,1,0)`, `(0,1,0,0)`, `(0,0,0,1)` have the declared
tuples of `QAngularAcceleration`, `QJerk` and `QCurvature`; so the three
declarations are well-formed, and with `radps`, `meter`, `second` of magnitude 1
the constants `radps2`, `mps3` and `radpm` have magnitude exactly 1. -/
theorem C12_declared_tuples (r s m g : ℝ) :
    binary overloads_divide (some (.quantity ⟨QAngularSpeed, r⟩)) (some (.quantity ⟨QTime, s⟩)) =
        some (.quantity ⟨QAngularAcceleration, r / s⟩)
    ∧ binary overloads_divide (some (.quantity ⟨QLength, m⟩))
        (binary overloads_times
          (binary overloads_times (some (.quantity ⟨QTime, s⟩)) (some (.quantity ⟨QTime, s⟩)))
          (some (.quantity ⟨QTime, s⟩))) = some (.quantity ⟨QJerk, m / (s * s * s)⟩)
    ∧ binary overloads_divide (some (.quantity ⟨QAngle, g⟩)) (some (.quantity ⟨QLength, m⟩)) =
        some (.quantity ⟨QCurvature, g / m⟩)
    ∧ QAngularAcceleration = ⟨0, 0, -2, 1⟩ ∧ QJerk = ⟨0, 1, -3, 0⟩ ∧ QCurvature = ⟨0, -1, 0, 1⟩
    ∧ radps2 = some (.quantity ⟨QAngularAcceleration, 1⟩)
    ∧ mps3 = some (.quantity ⟨QJerk, 1⟩)
    ∧ radpm = .quantity ⟨QCurvature, 1⟩ := by
  refine ⟨?_, ?_, ?_, rfl, rfl, rfl, ?_, ?_, rfl⟩
  · simp only [binary, Option.some_bind, operator_divide_call]
    norm_num [QAngularSpeed, QTime, QAngularAcceleration]
  · simp only [binary, Option.some_bind, operator_divide_call, operator_times_call]
    norm_num [QLength, QTime, QJerk]
  · simp only [binary, Option.some_bind, operator_divide_call]
    norm_num [QAngle, QLength, QCurvature]
  · simp only [radps2, radps, second, RQuantity.ctor, binary, Option.some_bind,
      operator_divide_call]
    norm_num [QAngularSpeed, QTime, QAngularAcceleration, declareAs]
  · simp only [mps3, meter, second, RQuantity.ctor, binary, Option.some_bind,
      operator_divide_call, operator_times_call]
    norm_num [QLength, QTime, QJerk, declareAs]

/-! ## RQuantity.hpp: rounding to a multiple of a reference quantity

`floor`, `ceil`, `trunc` and `round` apply a discontinuous function to the
quotient, so one rounding error in the quotient can move the result by a whole
multiple of the reference quantity.  The four functions therefore carry the
rounding `fl` of `/` and `*`; the call lemmas hold for every `fl`. -/

theorem square_call_none (e : List TArg) (q : RQuantity) : square.call e [.quantity q] = none := by
  simp [FnTemplate.call, Val.type, square_deduce]

theorem atan2_call_none (y x : RQuantity) :
    atan2.call [] [.quantity y, .quantity x] = none := by
  simp [FnTemplate.call, Val.type, atan2_deduce]

theorem atan2_resolve_none (y x : RQuantity) :
    resolve [atan2] [] [.quantity y, .quantity x] = none := by
  simp [resolve, atan2_call_none]

theorem Vector2D.magnitude_none (v : Vector2D) : v.magnitude = none := by
  simp [Vector2D.magnitude, unary, binary, Vector2D.getX, square_call_none, declareAs]

theorem Vector2D.theta_none (v : Vector2D) : v.theta = none := by
  simp [Vector2D.theta, binary, resolve, Vector2D.getX, Vector2D.getY, atan2_call_none,
    declareAs]

/-- C13: `magnitude()` is ill-formed for every vector, whatever its component
type: its body calls the free `square` and `sqrt`, which have no well-formed
call on a quantity.  In particular the vector of components 3 m and 4 m has
no magnitude in the code. -/
theorem C13_magnitude_ill_formed (v : Vector2D) :
    v.magnitude = none
    ∧ (Vector2D.mk QLength 3 4).magnitude = none
    ∧ unary square (some v.getX) = none := by
  refine ⟨v.magnitude_none, Vector2D.magnitude_none _, ?_⟩
  simp [unary, Vector2D.getX, square_call_none]

theorem operator_times_number_call (T : Dim) (m x : ℝ) :
    binary overloads_times (some (.quantity ⟨T, m⟩)) (some (.quantity ⟨Number, x⟩)) =
      some (.quantity ⟨T, m * x⟩) := by
  obtain ⟨a, b, c, d⟩ := T
  simp [binary, operator_times_call, Number]

theorem Vector2D.fromPolar_eq (constrainAngle : ℝ → ℝ) (T : Dim) (t m : ℝ) :
    Vector2D.fromPolar constrainAngle T t m =
      some ⟨T, |m| * Real.cos (constrainAngle t), |m| * Real.sin (constrainAngle t)⟩ := by
  simp [Vector2D.fromPolar, RQuantity.abs_call, declareAs, sin_call, cos_call,
    operator_times_number_call, Vector2D.ctor, Val.getValue, RQuantity.getValue]

/-- C14: `fromPolar(t, m)` is the vector of components `|m| * cos(c t)` and
`|m| * sin(c t)`, `c` being `constrainAngle`; for `m >= 0` and an angle that
`constrainAngle` leaves alone these are `m * cos(t)` and `m * sin(t)`.  The
round trip has no value in the code: `theta()` and `magnitude()` are ill-formed
on the result, as on every vector. -/
theorem C14_fromPolar (constrainAngle : ℝ → ℝ) (T : Dim) (t m : ℝ) :
    Vector2D.fromPolar constrainAngle T t m =
        some ⟨T, |m| * Real.cos (constrainAngle t), |m| * Real.sin (constrainAngle t)⟩
    ∧ (0 ≤ m → constrainAngle t = t →
        Vector2D.fromPolar constrainAngle T t m = some ⟨T, m * Real.cos t, m * Real.sin t⟩)
    ∧ (Vector2D.fromPolar constrainAngle T t m).bind Vector2D.theta = none
    ∧ (Vector2D.fromPolar constrainAngle T t m).bind Vector2D.magnitude = none := by
  refine ⟨Vector2D.fromPolar_eq _ _ _ _, fun hm ht => ?_, ?_, ?_⟩
  · rw [Vector2D.fromPolar_eq, ht, abs_of_nonneg hm]
  · simp [Vector2D.fromPolar_eq, Vector2D.theta_none]
  · simp [Vector2D.fromPolar_eq, Vector2D.magnitude_none]

/-- C14 at `t = 0`, `m = 2` metres, with a `constrainAngle` that changes nothing. -/
theorem C14_fromPolar_witness :
    (0 : ℝ) ≤ 2 ∧ (fun a : ℝ => a) 0 = 0 ∧
    Vector2D.fromPolar (fun a => a) QLength 0 2 =
      some ⟨QLength, 2 * Real.cos 0, 2 * Real.sin 0⟩ :=
  ⟨by norm_num, rfl, (C14_fromPolar (fun a => a) QLength 0 2).2.1 (by norm_num) rfl⟩

/-- C15: `v.rotatedBy(t)` is ill-formed for every vector `v` and angle `t` (its
body starts with `magnitude()` and `theta()`), so `v.rotatedBy(t).rotatedBy(-t)`
has no value; `-t` itself is the angle of magnitude `t * -1`. -/
theorem C15_rotatedBy_ill_formed (constrainAngle : ℝ → ℝ) (v : Vector2D) (t : ℝ) :
    v.rotatedBy constrainAngle t = none
    ∧ RQuantity.operator_negate.call [] [.quantity ⟨QAngle, t⟩] =
        some (.quantity ⟨QAngle, t * -1⟩)
    ∧ ((RQuantity.operator_negate.call [] [.quantity ⟨QAngle, t⟩]).bind fun nt =>
        (v.rotatedBy constrainAngle t).bind fun r => r.rotatedBy constrainAngle nt.getValue) =
        none := by
  have h : ∀ (u : Vector2D) (s : ℝ), u.rotatedBy constrainAngle s = none := by
    intro u s
    simp [Vector2D.rotatedBy, Vector2D.magnitude_none, declareAs]
  have hn : RQuantity.operator_negate.call [] [.quantity ⟨QAngle, t⟩] =
      some (.quantity ⟨QAngle, t * -1⟩) := by
    simp [FnTemplate.call, Signature.deduce, RQuantity.operator_negate, initBindings,
      deduceAll, deducePat, bindArg, complete, admitsAll, TParam.admits, RetPat.eval,
      RExpr.eval, mkVal, Val.type, Val.getValue, RQuantity.getValue, List.replicate]
  refine ⟨h v t, hn, ?_⟩
  simp [hn, h]

/-- C16: `rotateBy`, `rotateTo`, `rotatedBy` and `rotatedTo` are all ill-formed
for every vector and angle: each body starts with `T m = magnitude();`.  None of
them returns or leaves a vector. -/
theorem C16_rotations_ill_formed (constrainAngle : ℝ → ℝ) (v : Vector2D) (t : ℝ) :
    v.rotateBy t = none ∧ v.rotateTo t = none
    ∧ v.rotatedBy constrainAngle t = none ∧ v.rotatedTo constrainAngle t = none := by
  refine ⟨?_, ?_, ?_, ?_⟩ <;>
    simp [Vector2D.rotateBy, Vector2D.rotateTo, Vector2D.rotatedBy, Vector2D.rotatedTo,
      Vector2D.magnitude_none, declareAs]

/-! ## Vector2D.hpp: distance, displacement, arithmetic -/

/-- The call `square(q, 2)` has one argument too many for the only `square`. -/
theorem square_two_args_none (e : List TArg) (q : RQuantity) (k : ℝ) :
    square.call e [.quantity q, .dbl k] = none := by
  have h : ∀ b0, deduceAll square.params [.rq q.dims, .dbl] b0 = none := by
    intro b0
    simp only [square, deduceAll]
    cases deducePat (.var 2) (.rq q.dims) b0 <;> rfl
  simp only [FnTemplate.call, Signature.deduce, List.map, Val.type, h]
  cases initBindings square.tparams.length e <;> rfl

theorem Vector2D.distance_none (v w : Vector2D) : v.distance w = none := by
  unfold Vector2D.distance
  split_ifs with hT
  · simp [binary, operator_minus_call, Vector2D.getX, Vector2D.getY, hT,
      square_two_args_none, unary, declareAs]
  · rfl

/-- C17: `v.distance(w)` is ill-formed for all vectors `v`, `w`: its body calls
`square` with two arguments (no such function exists) and the free `sqrt`.  So
are `v.vectorTo(w).magnitude()` and `w.distance(v)`: the code has no distance. -/
theorem C17_distance_ill_formed (v w : Vector2D) (e : List TArg) (q : RQuantity) :
    v.distance w = none ∧ w.distance v = none
    ∧ (v.vectorTo w).bind Vector2D.magnitude = none
    ∧ square.call e [.quantity q, .dbl 2] = none := by
  refine ⟨Vector2D.distance_none v w, Vector2D.distance_none w v, ?_,
    square_two_args_none e q 2⟩
  cases v.vectorTo w with
  | none => rfl
  | some u => exact Vector2D.magnitude_none u

theorem operator_times_scalar_rhs_call (u : RQuantity) (k : ℝ) :
    resolve overloads_times [] [.quantity u, .dbl k] = some (.quantity ⟨u.dims, u.value * k⟩) := by
  simp [resolve, overloads_times, FnTemplate.call, Signature.deduce, operator_times,
    operator_times_scalar_lhs, operator_times_scalar_rhs, initBindings, deduceAll, deducePat,
    bindArg, complete, admitsAll, TParam.admits, RATIO_ADD, RetPat.eval, RExpr.eval, mkVal,
    Val.type, Val.getValue, RQuantity.getValue, List.replicate]

theorem operator_divide_scalar_rhs_call (u : RQuantity) (k : ℝ) :
    resolve overloads_divide [] [.quantity u, .dbl k] =
      some (.quantity ⟨u.dims, u.value / k⟩) := by
  have h1 : operator_divide.call [] [.quantity u, .dbl k] = none := by
    simp [FnTemplate.call, Signature.deduce, operator_divide, initBindings, deduceAll,
      deducePat, bindArg, Val.type, List.replicate]
  have h2 : operator_divide_scalar_lhs.call [] [.quantity u, .dbl k] = none := by
    simp [FnTemplate.call, Signature.deduce, operator_divide_scalar_lhs, initBindings,
      deduceAll, deducePat, Val.type, List.replicate]
  have h3 : operator_divide_scalar_rhs.call [] [.quantity u, .dbl k] =
      some (.quantity ⟨u.dims, u.value / k⟩) := by
    simp [FnTemplate.call, Signature.deduce, operator_divide_scalar_rhs, initBindings,
      deduceAll, deducePat, bindArg, complete, admitsAll, TParam.admits, RetPat.eval, mkVal,
      Val.type, Val.getValue, RQuantity.getValue, List.replicate]
  simp [resolve, overloads_divide, h1, h2, h3]

theorem RQuantity.operator_plus_assign_call (d : Dim) (x y : ℝ) :
    RQuantity.operator_plus_assign.call [] [.quantity ⟨d, x⟩, .quantity ⟨d, y⟩] =
      some (.quantity ⟨d, x + y⟩) := by
  simp [FnTemplate.call, Signature.deduce, RQuantity.operator_plus_assign, initBindings,
    deduceAll, deducePat, bindArg, complete, admitsAll, TParam.admits, RetPat.eval,
    RExpr.eval, mkVal, Val.type, Val.getValue, RQuantity.getValue, List.replicate]

theorem RQuantity.operator_minus_assign_call (d : Dim) (x y : ℝ) :
    RQuantity.operator_minus_assign.call [] [.quantity ⟨d, x⟩, .quantity ⟨d, y⟩] =
      some (.quantity ⟨d, x - y⟩) := by
  simp [FnTemplate.call, Signature.deduce, RQuantity.operator_minus_assign, initBindings,
    deduceAll, deducePat, bindArg, complete, admitsAll, TParam.admits, RetPat.eval,
    RExpr.eval, mkVal, Val.type, Val.getValue, RQuantity.getValue, List.replicate]

theorem RQuantity.operator_times_assign_call (d : Dim) (x k : ℝ) :
    RQuantity.operator_times_assign.call [] [.quantity ⟨d, x⟩, .dbl k] =
      some (.quantity ⟨d, x * k⟩) := by
  simp [FnTemplate.call, Signature.deduce, RQuantity.operator_times_assign, initBindings,
    deduceAll, deducePat, bindArg, complete, admitsAll, TParam.admits, RetPat.eval,
    RExpr.eval, mkVal, Val.type, Val.getValue, RQuantity.getValue, List.replicate]

theorem RQuantity.operator_divide_assign_call (d : Dim) (x k : ℝ) :
    RQuantity.operator_divide_assign.call [] [.quantity ⟨d, x⟩, .dbl k] =
      some (.quantity ⟨d, x / k⟩) := by
  simp [FnTemplate.call, Signature.deduce, RQuantity.operator_divide_assign, initBindings,
    deduceAll, deducePat, bindArg, complete, admitsAll, TParam.admits, RetPat.eval,
    RExpr.eval, mkVal, Val.type, Val.getValue, RQuantity.getValue, List.replicate]

theorem Vector2D.operator_plus_eq (T : Dim) (vx vy wx wy : ℝ) :
    (Vector2D.mk T vx vy).operator_plus ⟨T, wx, wy⟩ = some ⟨T, vx + wx, vy + wy⟩ := by
  simp [Vector2D.operator_plus, Vector2D.ctor, Vector2D.getX, Vector2D.getY, binary,
    operator_plus_call, declareAs, Val.getValue, RQuantity.getValue]

theorem Vector2D.vectorTo_eq (T : Dim) (vx vy wx wy : ℝ) :
    (Vector2D.mk T vx vy).vectorTo ⟨T, wx, wy⟩ = some ⟨T, wx - vx, wy - vy⟩ := by
  simp [Vector2D.vectorTo, Vector2D.ctor, Vector2D.getX, Vector2D.getY, binary,
    operator_minus_call, declareAs, Val.getValue, RQuantity.getValue]

/-- C18: for vectors `v`, `w` of one component type and a scalar `k`, each of
`v += w`, `v -= w`, `v *= k`, `v /= k` is well-formed, leaves in `v` the vector
that `v + w`, `v - w`, `v * k`, `v / k` returns (computed component by
component), returns that same object and leaves `w` as it was. -/
theorem C18_compound_assignment (T : Dim) (vx vy wx wy k : ℝ) :
    (Vector2D.mk T vx vy).operator_plus ⟨T, wx, wy⟩ = some ⟨T, vx + wx, vy + wy⟩
    ∧ (Vector2D.mk T vx vy).operator_plus_assign ⟨T, wx, wy⟩ =
        some ⟨⟨T, vx + wx, vy + wy⟩, ⟨T, wx, wy⟩, ⟨T, vx + wx, vy + wy⟩⟩
    ∧ (Vector2D.mk T vx vy).operator_minus ⟨T, wx, wy⟩ = some ⟨T, vx - wx, vy - wy⟩
    ∧ (Vector2D.mk T vx vy).operator_minus_assign ⟨T, wx, wy⟩ =
        some ⟨⟨T, vx - wx, vy - wy⟩, ⟨T, wx, wy⟩, ⟨T, vx - wx, vy - wy⟩⟩
    ∧ (Vector2D.mk T vx vy).operator_times k = some ⟨T, vx * k, vy * k⟩
    ∧ (Vector2D.mk T vx vy).operator_times_assign k =
        some ⟨⟨T, vx * k, vy * k⟩, ⟨T, vx * k, vy * k⟩⟩
    ∧ (Vector2D.mk T vx vy).operator_divide k = some ⟨T, vx / k, vy / k⟩
    ∧ (Vector2D.mk T vx vy).operator_divide_assign k =
        some ⟨⟨T, vx / k, vy / k⟩, ⟨T, vx / k, vy / k⟩⟩ := by
  refine ⟨Vector2D.operator_plus_eq T vx vy wx wy, ?_, ?_, ?_, ?_, ?_, ?_, ?_⟩
  · simp [Vector2D.operator_plus_assign, Vector2D.getX, Vector2D.getY,
      RQuantity.operator_plus_assign_call, Val.getValue, RQuantity.getValue]
  · simp [Vector2D.operator_minus, Vector2D.ctor, Vector2D.getX, Vector2D.getY, binary,
      operator_minus_call, declareAs, Val.getValue, RQuantity.getValue]
  · simp [Vector2D.operator_minus_assign, Vector2D.getX, Vector2D.getY,
      RQuantity.operator_minus_assign_call, Val.getValue, RQuantity.getValue]
  · simp [Vector2D.operator_times, Vector2D.ctor, Vector2D.getX, Vector2D.getY, binary,
      operator_times_scalar_rhs_call, declareAs, Val.getValue, RQuantity.getValue]
  · simp [Vector2D.operator_times_assign, Vector2D.getX, Vector2D.getY,
      RQuantity.operator_times_assign_call, Val.getValue, RQuantity.getValue]
  · simp [Vector2D.operator_divide, Vector2D.ctor, Vector2D.getX, Vector2D.getY, binary,
      operator_divide_scalar_rhs_call, declareAs, Val.getValue, RQuantity.getValue]
  · simp [Vector2D.operator_divide_assign, Vector2D.getX, Vector2D.getY,
      RQuantity.operator_divide_assign_call, Val.getValue, RQuantity.getValue]

/-- C19: for vectors `v`, `w` of one component type, `v.vectorTo(w)` is the vector
of components `w.x - v.x` and `w.y - v.y`, and adding it to `v` gives `w`;
`v.angleTo(w)` and `theta()` of the displacement are ill-formed (both bodies
call `atan2` without template arguments), so the code has no angle to compare. -/
theorem C19_vectorTo_angleTo (T : Dim) (vx vy wx wy : ℝ) :
    (Vector2D.mk T vx vy).vectorTo ⟨T, wx, wy⟩ = some ⟨T, wx - vx, wy - vy⟩
    ∧ ((Vector2D.mk T vx vy).vectorTo ⟨T, wx, wy⟩).bind
        (fun d => (Vector2D.mk T vx vy).operator_plus d) = some ⟨T, wx, wy⟩
    ∧ (Vector2D.mk T vx vy).angleTo ⟨T, wx, wy⟩ = none
    ∧ ((Vector2D.mk T vx vy).vectorTo ⟨T, wx, wy⟩).bind Vector2D.theta = none := by
  refine ⟨Vector2D.vectorTo_eq T vx vy wx wy, ?_, ?_, ?_⟩
  · simp [Vector2D.vectorTo_eq, Vector2D.operator_plus_eq]
  · simp [Vector2D.angleTo, binary, operator_minus_call, Vector2D.getX,
      Vector2D.getY, atan2_resolve_none, declareAs]
  · simp [Vector2D.vectorTo_eq, Vector2D.theta_none]

end units
